import Mathlib

/-!
Verification development for the 2D23D geometric feature-detection core.

The Python source is shallowly embedded:
* drawing coordinates are exact rationals (`ℚ`); Python floats on the
  claim-relevant inputs are rational literals, and all arithmetic that the
  detectors perform on coordinates (midpoints, gaps, medians, means,
  confidences) is rational arithmetic;
* Euclidean length / distance and `math.atan2` are real-valued functions of
  those rational coordinates (`Real.sqrt`, `Real.arctan`), so predicates such
  as "length ≥ 1000" or "angle within 0.087 rad of horizontal" are
  propositions over `ℝ`, decided classically in the embedded control flow;
* Python exceptions (`ZeroDivisionError`) are modelled with `Except`;
  a function returning `None` is modelled with `Option`.
-/

open Classical

noncomputable section

/-! ### Geometry primitives (src/d23d/core/models.py) -/

/-- `Point2D` of models.py: a 2D point in drawing space (coordinates exact). -/
structure Point2D where
  x : ℚ
  y : ℚ
deriving DecidableEq, Repr, Inhabited

/-- `Line2D` of models.py: an ordered 2D segment with a source layer. -/
structure Line2D where
  start : Point2D
  stop : Point2D
  layer : String := "0"
deriving DecidableEq, Repr, Inhabited

namespace Point2D

/-- Squared Euclidean distance (rational, exact). -/
def distSq (p q : Point2D) : ℚ :=
  (p.x - q.x) ^ 2 + (p.y - q.y) ^ 2

/-- `Point2D.distance_to` of models.py: Euclidean distance. -/
def distance_to (p q : Point2D) : ℝ :=
  Real.sqrt ((p.distSq q : ℚ) : ℝ)

end Point2D

/-- `math.atan2` (range `(-π, π]`), as used by `Line2D.angle`. -/
def atan2 (y x : ℝ) : ℝ :=
  if 0 < x then Real.arctan (y / x)
  else if x < 0 then
    (if 0 ≤ y then Real.arctan (y / x) + Real.pi
     else Real.arctan (y / x) - Real.pi)
  else if 0 < y then Real.pi / 2
  else if y < 0 then -(Real.pi / 2)
  else 0

namespace Line2D

/-- x-extent of a segment. -/
def dx (l : Line2D) : ℚ := l.stop.x - l.start.x

/-- y-extent of a segment. -/
def dy (l : Line2D) : ℚ := l.stop.y - l.start.y

/-- `Line2D.length` of models.py. -/
def length (l : Line2D) : ℝ :=
  l.start.distance_to l.stop

/-- `Line2D.angle` of models.py: `atan2(dy, dx)`. -/
def angle (l : Line2D) : ℝ :=
  atan2 ((l.dy : ℚ) : ℝ) ((l.dx : ℚ) : ℝ)

/-- `Line2D.is_horizontal` of models.py. -/
def is_horizontal (l : Line2D) (tolerance : ℝ) : Prop :=
  |l.angle| < tolerance ∨ |(|l.angle|) - Real.pi| < tolerance

/-- `Line2D.is_vertical` of models.py. -/
def is_vertical (l : Line2D) (tolerance : ℝ) : Prop :=
  |(|l.angle|) - Real.pi / 2| < tolerance

/-- The same segment with `start` and `end` swapped. -/
def reverse (l : Line2D) : Line2D :=
  { start := l.stop, stop := l.start, layer := l.layer }

end Line2D

/-! ### `atan2` facts needed for the reversal invariance of classification -/

/-! ### Grid detection (src/d23d/detection/grid_detector.py)

The post-clustering arithmetic of `GridDetector` (positions, gaps, median,
confidences, labels, intersections, regularity, bounding box) is exact
rational arithmetic, embedded computably.  Division is checked: Python
raises `ZeroDivisionError` on `x / 0.0`, modelled by `Except GridError`. -/

/-- `GridLine` of models.py (the fields grid detection reads and writes). -/
structure GridLine where
  line : Line2D
  label : String
  is_vertical : Bool
  confidence : ℚ
  spacing_to_next : Option ℚ
deriving DecidableEq, Repr

/-- `GridIntersection` of models.py. -/
structure GridIntersection where
  point : Point2D
  grid_h : String
  grid_v : String
  confidence : ℚ
deriving DecidableEq, Repr

/-- `BoundingBox` of models.py (planar fields; `min_z`/`max_z` stay 0). -/
structure BoundingBox where
  min_x : ℚ
  min_y : ℚ
  max_x : ℚ
  max_y : ℚ
deriving DecidableEq, Repr

/-- `BuildingGrid` of models.py. -/
structure BuildingGrid where
  horizontal_lines : List GridLine
  vertical_lines : List GridLine
  intersections : List GridIntersection
  bounding_box : BoundingBox
  is_regular : Bool
  avg_h_spacing : Option ℚ
  avg_v_spacing : Option ℚ
  confidence : ℚ
deriving DecidableEq, Repr

/-- The `GridDetector.__init__` parameters with their source defaults. -/
structure GridCfg where
  min_line_length : ℚ := 1000
  angle_tolerance : ℚ := 87 / 1000
  spacing_tolerance : ℚ := 15 / 100
  min_grid_lines : ℕ := 2
deriving DecidableEq, Repr

/-- The detector parameterized by its source defaults. -/
def defaultGridCfg : GridCfg := {}

/-- Python runtime errors reachable inside `GridDetector.detect`. -/
inductive GridError where
  | divByZero
deriving DecidableEq, Repr

deriving instance DecidableEq for Except

/-- Checked division: Python `a / b` raises `ZeroDivisionError` when `b == 0`. -/
def qdiv (a b : ℚ) : Except GridError ℚ :=
  if b = 0 then .error .divByZero else .ok (a / b)

/-- Projected scalar position of a line (`_detect_grid_lines`): midpoint X for
vertical lines, midpoint Y for horizontal lines. -/
def linePos (isv : Bool) (l : Line2D) : ℚ :=
  if isv then (l.start.x + l.stop.x) / 2 else (l.start.y + l.stop.y) / 2

/-- Stable insertion (by position key) used to model Python's stable sort. -/
def insertPos (p : ℚ × Line2D) : List (ℚ × Line2D) → List (ℚ × Line2D)
  | [] => [p]
  | q :: qs => if p.1 < q.1 then p :: q :: qs else q :: insertPos p qs

/-- `positions.sort(key=lambda x: x[0])`: stable ascending sort by position. -/
def sortPositions (ps : List (ℚ × Line2D)) : List (ℚ × Line2D) :=
  ps.foldl (fun acc p => insertPos p acc) []

/-- Consecutive gaps `abs(positions[i+1][0] - positions[i][0])`. -/
def consecutiveGaps : List ℚ → List ℚ
  | [] => []
  | [_] => []
  | a :: b :: rest => |b - a| :: consecutiveGaps (b :: rest)

/-- Ascending insertion for the median's internal sort. -/
def insertQ (x : ℚ) : List ℚ → List ℚ
  | [] => [x]
  | y :: ys => if x < y then x :: y :: ys else y :: insertQ x ys

/-- Ascending sort of rationals. -/
def sortQ (l : List ℚ) : List ℚ :=
  l.foldl (fun acc x => insertQ x acc) []

/-- `np.median`: middle element of the sorted list, or the mean of the two
middle elements for an even count. -/
def medianQ (l : List ℚ) : ℚ :=
  let s := sortQ l
  if s.length % 2 = 1 then s.getD (s.length / 2) 0
  else (s.getD (s.length / 2 - 1) 0 + s.getD (s.length / 2) 0) / 2

/-- `GridDetector._find_dominant_spacing`. -/
def findDominantSpacing (spacings : List ℚ) : ℚ :=
  if spacings = [] then 0
  else if spacings.length = 1 then spacings.headD 0
  else medianQ spacings

/-- Per-line confidence of `_detect_grid_lines` (index `i` of `n` sorted
lines); the divisions by the dominant spacing are checked. -/
def gridLineConfidence (spacings : List ℚ) (dominant : ℚ) (n i : ℕ) :
    Except GridError ℚ :=
  if i = 0 then
    if i < spacings.length then do
      let dev ← qdiv (|spacings.getD i 0 - dominant|) dominant
      pure (max (1 / 2) (1 - dev))
    else pure (7 / 10)
  else if i = n - 1 then do
    let dev ← qdiv (|spacings.getD (i - 1) 0 - dominant|) dominant
    pure (max (1 / 2) (1 - dev))
  else do
    let prevDev ← qdiv (|spacings.getD (i - 1) 0 - dominant|) dominant
    let nextDev ← qdiv (|spacings.getD i 0 - dominant|) dominant
    pure (max (1 / 2) (1 - (prevDev + nextDev) / 2))

/-- `GridDetector._detect_grid_lines`. -/
def detectGridLines (lines : List Line2D) (isv : Bool) :
    Except GridError (List GridLine) :=
  if lines = [] then .ok []
  else
    let sorted := sortPositions (lines.map (fun l => (linePos isv l, l)))
    let spacings := consecutiveGaps (sorted.map (·.1))
    if spacings = [] then .ok []
    else
      let dominant := findDominantSpacing spacings
      (List.range sorted.length).mapM (fun i => do
        let conf ← gridLineConfidence spacings dominant sorted.length i
        pure { line := (sorted.getD i default).2
               label := ""
               is_vertical := isv
               confidence := conf
               spacing_to_next :=
                 if i < spacings.length then some (spacings.getD i 0)
                 else none : GridLine })

/-- Horizontal label sequence of `_label_grid_lines`: A, B, …, Z, AA, AB, … -/
def hGridLabel (i : ℕ) : String :=
  if i < 26 then String.singleton (Char.ofNat (65 + i))
  else String.singleton (Char.ofNat (65 + i / 26 - 1))
       ++ String.singleton (Char.ofNat (65 + i % 26))

/-- `GridDetector._label_grid_lines`. -/
def labelGridLines (gls : List GridLine) (isv : Bool) : List GridLine :=
  gls.enum.map (fun p =>
    { p.2 with label := if isv then toString (p.1 + 1) else hGridLabel p.1 })

/-- `GridDetector._find_intersections`: full cross product, point
`(vertical midpoint X, horizontal midpoint Y)`, confidence the minimum. -/
def findIntersections (hls vls : List GridLine) : List GridIntersection :=
  hls.bind (fun hl => vls.map (fun vl =>
    { point := { x := (vl.line.start.x + vl.line.stop.x) / 2
                 y := (hl.line.start.y + hl.line.stop.y) / 2 }
      grid_h := hl.label
      grid_v := vl.label
      confidence := min hl.confidence vl.confidence }))

/-- Python truthiness filter `[gl.spacing_to_next for gl in lines if
gl.spacing_to_next]`: drops `None` and `0.0`. -/
def truthySpacings (gls : List GridLine) : List ℚ :=
  gls.filterMap (fun gl =>
    match gl.spacing_to_next with
    | some s => if s = 0 then none else some s
    | none => none)

/-- `np.mean` (only reached on nonempty lists). -/
def meanQ (l : List ℚ) : ℚ := l.sum / l.length

/-- `GridDetector._is_spacing_regular`.  Its division `|s - avg| / avg` is
plain rational division: every call site passes the mean of a nonempty list
of positive spacings, so the divisor is nonzero. -/
def isSpacingRegular (cfg : GridCfg) (spacings : List ℚ) (avg : Option ℚ) :
    Bool :=
  match avg with
  | none => false
  | some a =>
    if spacings = [] then false
    else spacings.all (fun s => !(cfg.spacing_tolerance < |s - a| / a))

/-- `GridDetector._check_regularity`. -/
def checkRegularity (cfg : GridCfg) (hls vls : List GridLine) :
    Bool × Option ℚ × Option ℚ :=
  let hs := truthySpacings hls
  let vs := truthySpacings vls
  let avgH : Option ℚ := if hs = [] then none else some (meanQ hs)
  let avgV : Option ℚ := if vs = [] then none else some (meanQ vs)
  let hreg := if hs = [] then true else isSpacingRegular cfg hs avgH
  let vreg := if vs = [] then true else isSpacingRegular cfg vs avgV
  (hreg && vreg, avgH, avgV)

/-- `GridDetector._calculate_confidence` (only reached with nonempty axes). -/
def calculateConfidence (hls vls : List GridLine) (isRegular : Bool) : ℚ :=
  let hconf := meanQ (hls.map (·.confidence))
  let vconf := meanQ (vls.map (·.confidence))
  let base := (hconf + vconf) / 2
  let regularityBonus : ℚ := if isRegular then 1 / 10 else 0
  let lineCount := hls.length + vls.length
  let countBonus : ℚ :=
    if 4 ≤ lineCount ∧ lineCount ≤ 20 then 1 / 10
    else if 20 < lineCount then 5 / 100
    else 0
  min 1 (base + regularityBonus + countBonus)

/-- Python `min` over a nonempty list (junk value 0 on `[]`, unreachable). -/
def minListQ : List ℚ → ℚ
  | [] => 0
  | x :: xs => xs.foldl min x

/-- Python `max` over a nonempty list (junk value 0 on `[]`, unreachable). -/
def maxListQ : List ℚ → ℚ
  | [] => 0
  | x :: xs => xs.foldl max x

/-- `GridDetector._calculate_grid_bbox`. -/
def calculateGridBbox (hls vls : List GridLine) : BoundingBox :=
  let hpos := hls.map (fun gl => (gl.line.start.y + gl.line.stop.y) / 2)
  let vpos := vls.map (fun gl => (gl.line.start.x + gl.line.stop.x) / 2)
  { min_x := minListQ vpos
    max_x := maxListQ vpos
    min_y := minListQ hpos
    max_y := maxListQ hpos }

/-- `GridDetector.detect` from orientation clustering onwards (steps 3–7);
everything here is exact rational computation. -/
def detectClustered (cfg : GridCfg) (h v : List Line2D) :
    Except GridError (Option BuildingGrid) :=
  if h.length < cfg.min_grid_lines ∨ v.length < cfg.min_grid_lines then .ok none
  else
    match detectGridLines h false with
    | .error e => .error e
    | .ok hg =>
      match detectGridLines v true with
      | .error e => .error e
      | .ok vg =>
        if hg = [] ∨ vg = [] then .ok none
        else
          let hl := labelGridLines hg false
          let vl := labelGridLines vg true
          let reg := checkRegularity cfg hl vl
          .ok (some
            { horizontal_lines := hl
              vertical_lines := vl
              intersections := findIntersections hl vl
              bounding_box := calculateGridBbox hl vl
              is_regular := reg.1
              avg_h_spacing := reg.2.1
              avg_v_spacing := reg.2.2
              confidence := calculateConfidence hl vl reg.1 })

/-- Length filter of `detect` step 1: keep lines with
`length() >= min_line_length`. -/
def lengthFilter (cfg : GridCfg) : List Line2D → List Line2D
  | [] => []
  | l :: ls =>
    if (cfg.min_line_length : ℝ) ≤ l.length then l :: lengthFilter cfg ls
    else lengthFilter cfg ls

/-- `GridDetector._cluster_by_orientation`: horizontal bucket, vertical
bucket, diagonals dropped. -/
def clusterByOrientation (cfg : GridCfg) :
    List Line2D → List Line2D × List Line2D
  | [] => ([], [])
  | l :: ls =>
    let rest := clusterByOrientation cfg ls
    if l.is_horizontal (cfg.angle_tolerance : ℝ) then (l :: rest.1, rest.2)
    else if l.is_vertical (cfg.angle_tolerance : ℝ) then (rest.1, l :: rest.2)
    else rest

/-- `GridDetector.detect`: `Except.ok none` is Python's `return None`,
`Except.error` a raised exception. -/
def detect (cfg : GridCfg) (lines : List Line2D) :
    Except GridError (Option BuildingGrid) :=
  if (lengthFilter cfg lines).length < cfg.min_grid_lines * 2 then .ok none
  else
    detectClustered cfg (clusterByOrientation cfg (lengthFilter cfg lines)).1
      (clusterByOrientation cfg (lengthFilter cfg lines)).2

/-! Evaluation helpers for running `detect` on concrete inputs. -/

/-! A 2×2 grid input on which detection succeeds (all four lines pass the
1000 mm filter; horizontals at Y = 0 and 3000, verticals at X = 0 and
6000). -/

def gridH1 : Line2D := { start := ⟨0, 0⟩, stop := ⟨6000, 0⟩, layer := "GRID" }

def gridH2 : Line2D :=
  { start := ⟨0, 3000⟩, stop := ⟨6000, 3000⟩, layer := "GRID" }

def gridV1 : Line2D := { start := ⟨0, 0⟩, stop := ⟨0, 3000⟩, layer := "GRID" }

def gridV2 : Line2D :=
  { start := ⟨6000, 0⟩, stop := ⟨6000, 3000⟩, layer := "GRID" }

def gridDemoLines : List Line2D := [gridH1, gridH2, gridV1, gridV2]

/-- The `BuildingGrid` that `detect` computes on `gridDemoLines`. -/
def gridDemoResult : BuildingGrid :=
  { horizontal_lines :=
      [{ line := gridH1, label := "A", is_vertical := false, confidence := 1,
         spacing_to_next := some 3000 },
       { line := gridH2, label := "B", is_vertical := false, confidence := 1,
         spacing_to_next := none }]
    vertical_lines :=
      [{ line := gridV1, label := "1", is_vertical := true, confidence := 1,
         spacing_to_next := some 6000 },
       { line := gridV2, label := "2", is_vertical := true, confidence := 1,
         spacing_to_next := none }]
    intersections :=
      [{ point := ⟨0, 0⟩, grid_h := "A", grid_v := "1", confidence := 1 },
       { point := ⟨6000, 0⟩, grid_h := "A", grid_v := "2", confidence := 1 },
       { point := ⟨0, 3000⟩, grid_h := "B", grid_v := "1", confidence := 1 },
       { point := ⟨6000, 3000⟩, grid_h := "B", grid_v := "2", confidence := 1 }]
    bounding_box := { min_x := 0, min_y := 0, max_x := 6000, max_y := 3000 }
    is_regular := true
    avg_h_spacing := some 3000
    avg_v_spacing := some 6000
    confidence := 1 }

/-! C9 input: two coincident horizontal lines (same midpoint Y), so the only
gap — and hence the median dominant spacing — is 0, and the per-line
confidence computation divides by zero. -/

def coincidentH : Line2D := { start := ⟨0, 0⟩, stop := ⟨1000, 0⟩, layer := "GRID" }

def coincidentV1 : Line2D := { start := ⟨0, 0⟩, stop := ⟨0, 1000⟩, layer := "GRID" }

def coincidentV2 : Line2D :=
  { start := ⟨500, 0⟩, stop := ⟨500, 1000⟩, layer := "GRID" }

def coincidentLines : List Line2D :=
  [coincidentH, coincidentH, coincidentV1, coincidentV2]

/-! ### Element types (src/d23d/core/models.py) and the `Foundation` default
(src/d23d/detection/foundation_detector.py) -/

/-- `ElementType` of models.py: the complete member list of the enumeration. -/
inductive ElementType where
  | grid
  | grid_line
  | grid_intersection
  | wall
  | column
  | slab
  | door
  | window
  | beam
deriving DecidableEq, Repr

/-- The Python attribute name of each `ElementType` member. -/
def ElementType.memberName : ElementType → String
  | .grid => "GRID"
  | .grid_line => "GRID_LINE"
  | .grid_intersection => "GRID_INTERSECTION"
  | .wall => "WALL"
  | .column => "COLUMN"
  | .slab => "SLAB"
  | .door => "DOOR"
  | .window => "WINDOW"
  | .beam => "BEAM"

/-- All members of the `ElementType` enumeration, in source order. -/
def elementTypeMembers : List ElementType :=
  [.grid, .grid_line, .grid_intersection, .wall, .column, .slab, .door,
   .window, .beam]

/-- Python attribute access `ElementType.<name>`: `some` member on success,
`none` for the `AttributeError` raised on a missing member. -/
def lookupElementTypeMember (s : String) : Option ElementType :=
  elementTypeMembers.find? (fun e => e.memberName = s)

/-- The member name that the declared `Foundation.element_type` default
`ElementType.FOUNDATION` references (foundation_detector.py line 21). -/
def foundationDefaultMemberName : String := "FOUNDATION"

/-! ### Foundation detection (src/d23d/detection/foundation_detector.py)

`group_lines_into_foundations` is pure rational arithmetic (midpoints,
mins/maxes, absolute differences against the fixed 300 mm pile size and
10 mm tolerance), embedded computably.  The position-cluster computations
(`cluster_lines_by_position`, `cluster_coordinates`) feed only debug
logging, not the result, and are not modelled. -/

/-- `Foundation` of foundation_detector.py (geometry and provenance fields;
for the unresolvable `element_type` default see
`foundation_element_type_member_missing`). -/
structure Foundation where
  center : Point2D
  width : ℚ
  depth : ℚ
  foundation_depth : ℚ
  predefined_type : String
  confidence : ℚ
  source_layer : String
deriving DecidableEq, Repr

/-- Orientation split of `group_lines_into_foundations`: horizontal when
`dx > dy` (absolute extents), else vertical. -/
def splitByDominance : List Line2D → List Line2D × List Line2D
  | [] => ([], [])
  | l :: ls =>
    let rest := splitByDominance ls
    if |l.dy| < |l.dx| then (l :: rest.1, rest.2) else (rest.1, l :: rest.2)

/-- `used_lines.add(k)` on the single shared set of indices. -/
def addUsed (s : List ℕ) (k : ℕ) : List ℕ :=
  if k ∈ s then s else s ++ [k]

/-- Search for the opposite horizontal side: first unconsumed `j ≠ i` with
matching X-extent and Y-separation `pile ± tol`. -/
def scanOpposite (used : List ℕ) (i : ℕ) (xmin1 xmax1 y1 pile tol : ℚ) :
    List (ℕ × Line2D) → Option (ℕ × ℚ)
  | [] => none
  | (j, l2) :: rest =>
    if j ∈ used ∨ j = i then scanOpposite used i xmin1 xmax1 y1 pile tol rest
    else
      let xmin2 := min l2.start.x l2.stop.x
      let xmax2 := max l2.start.x l2.stop.x
      let y2 := (l2.start.y + l2.stop.y) / 2
      if |xmin1 - xmin2| < tol ∧ |xmax1 - xmax2| < tol
          ∧ |(|y2 - y1|) - pile| < tol then some (j, y2)
      else scanOpposite used i xmin1 xmax1 y1 pile tol rest

/-- Search for the two unconsumed vertical sides spanning the two horizontal
lines; stops as soon as two are found. -/
def scanVerticals (used : List ℕ) (yminr ymaxr xmin1 xmax1 tol : ℚ)
    (acc : List ℕ) : List (ℕ × Line2D) → List ℕ
  | [] => acc
  | (k, l3) :: rest =>
    if k ∈ used then scanVerticals used yminr ymaxr xmin1 xmax1 tol acc rest
    else
      let x3 := (l3.start.x + l3.stop.x) / 2
      let ymin3 := min l3.start.y l3.stop.y
      let ymax3 := max l3.start.y l3.stop.y
      if |ymin3 - yminr| < tol ∧ |ymax3 - ymaxr| < tol
          ∧ (|x3 - xmin1| < tol ∨ |x3 - xmax1| < tol) then
        let acc2 := acc ++ [k]
        if 2 ≤ acc2.length then acc2
        else scanVerticals used yminr ymaxr xmin1 xmax1 tol acc2 rest
      else scanVerticals used yminr ymaxr xmin1 xmax1 tol acc rest

/-- The main rectangle loop of `group_lines_into_foundations`: one shared
`used` index set across the horizontal and the vertical list. -/
def foundationLoop (horizontal vertical : List (ℕ × Line2D))
    (srcLayer : String) (pile tol fdepth : ℚ) :
    List (ℕ × Line2D) → List ℕ → List Foundation × List ℕ
  | [], used => ([], used)
  | (i, line1) :: rest, used =>
    if i ∈ used then
      foundationLoop horizontal vertical srcLayer pile tol fdepth rest used
    else
      let xmin1 := min line1.start.x line1.stop.x
      let xmax1 := max line1.start.x line1.stop.x
      let y1 := (line1.start.y + line1.stop.y) / 2
      match scanOpposite used i xmin1 xmax1 y1 pile tol horizontal with
      | none => foundationLoop horizontal vertical srcLayer pile tol fdepth rest used
      | some (j2, y2) =>
        let vf := scanVerticals used (min y1 y2) (max y1 y2) xmin1 xmax1 tol
          [] vertical
        if 2 ≤ vf.length then
          let f : Foundation :=
            { center := ⟨(xmin1 + xmax1) / 2, (y1 + y2) / 2⟩
              width := pile
              depth := pile
              foundation_depth := fdepth
              predefined_type := "BASESLAB"
              confidence := 9 / 10
              source_layer := srcLayer }
          let used2 := addUsed (addUsed (addUsed (addUsed used i) j2)
            (vf.getD 0 0)) (vf.getD 1 0)
          let tail := foundationLoop horizontal vertical srcLayer pile tol
            fdepth rest used2
          (f :: tail.1, tail.2)
        else foundationLoop horizontal vertical srcLayer pile tol fdepth rest used

/-- `group_lines_into_foundations` together with its final consumed-index
set (`pile_size = 300`, `tolerance = 10`). -/
def groupFoundationsAux (lines : List Line2D) (fdepth : ℚ) :
    List Foundation × List ℕ :=
  if lines = [] then ([], [])
  else
    let hv := splitByDominance lines
    foundationLoop hv.1.enum hv.2.enum ((lines.headD default).layer) 300 10
      fdepth hv.1.enum []

/-- `group_lines_into_foundations` (the returned foundation list). -/
def group_lines_into_foundations (lines : List Line2D) (fdepth : ℚ) :
    List Foundation :=
  (groupFoundationsAux lines fdepth).1

/-! The C2 scenario: a 300×300 square of foundation lines centered at
(5000, 5000), side lengths 300 (within the 200–500 length window of
`detect_foundations`). -/

def fndBottom : Line2D :=
  { start := ⟨4850, 4850⟩, stop := ⟨5150, 4850⟩, layer := "S-FNDN-HDLN" }

def fndTop : Line2D :=
  { start := ⟨4850, 5150⟩, stop := ⟨5150, 5150⟩, layer := "S-FNDN-HDLN" }

def fndLeft : Line2D :=
  { start := ⟨4850, 4850⟩, stop := ⟨4850, 5150⟩, layer := "S-FNDN-HDLN" }

def fndRight : Line2D :=
  { start := ⟨5150, 4850⟩, stop := ⟨5150, 5150⟩, layer := "S-FNDN-HDLN" }

def squareLines : List Line2D := [fndBottom, fndTop, fndLeft, fndRight]

/-! The C10 scenario: two disjoint complete 300×300 rectangles, ordered so
that rectangle A consumes vertical indices 2 and 3 in the shared set,
which then blocks horizontal index 2 (the first side of rectangle B). -/

def rectA_h0 : Line2D := { start := ⟨0, 0⟩, stop := ⟨300, 0⟩, layer := "S-FNDN-HDLN" }

def rectA_h1 : Line2D := { start := ⟨0, 300⟩, stop := ⟨300, 300⟩, layer := "S-FNDN-HDLN" }

def rectB_h0 : Line2D := { start := ⟨2000, 0⟩, stop := ⟨2300, 0⟩, layer := "S-FNDN-HDLN" }

def rectB_h1 : Line2D := { start := ⟨2000, 300⟩, stop := ⟨2300, 300⟩, layer := "S-FNDN-HDLN" }

def rectB_v0 : Line2D := { start := ⟨2000, 0⟩, stop := ⟨2000, 300⟩, layer := "S-FNDN-HDLN" }

def rectB_v1 : Line2D := { start := ⟨2300, 0⟩, stop := ⟨2300, 300⟩, layer := "S-FNDN-HDLN" }

def rectA_v0 : Line2D := { start := ⟨0, 0⟩, stop := ⟨0, 300⟩, layer := "S-FNDN-HDLN" }

def rectA_v1 : Line2D := { start := ⟨300, 0⟩, stop := ⟨300, 300⟩, layer := "S-FNDN-HDLN" }

def twoRectLines : List Line2D :=
  [rectA_h0, rectA_h1, rectB_h0, rectB_h1, rectB_v0, rectB_v1, rectA_v0,
   rectA_v1]

def rectBLines : List Line2D := [rectB_h0, rectB_h1, rectB_v0, rectB_v1]

/-! ### Wall segment merging (src/d23d/detection/wall_detector.py) -/

/-- `Wall` of models.py (the fields the merger and the intersection resolver
read and write). -/
structure Wall where
  centerline : Line2D
  thickness : ℚ
  height : ℚ
  confidence : ℚ
  source_layer : Option String
deriving DecidableEq, Repr, Inhabited

/-- Python float `%` for a positive modulus: `a - b * floor(a / b)`. -/
def pyMod (a b : ℝ) : ℝ := a - b * (⌊a / b⌋ : ℝ)

/-- `_angles_close`: compare `|angle| mod π` with wrap-around above `π/2`. -/
def anglesClose (angle1 angle2 tolerance : ℝ) : Prop :=
  let a1 := pyMod |angle1| Real.pi
  let a2 := pyMod |angle2| Real.pi
  let diff := |a1 - a2|
  (if Real.pi / 2 < diff then Real.pi - diff else diff) < tolerance

/-- `_points_close`. -/
def pointsClose (p1 p2 : Point2D) (tolerance : ℝ) : Prop :=
  p1.distance_to p2 < tolerance

/-- `_points_collinear`: perpendicular distance of `p2` from the line
`p1`–`p3`, degenerate base counts as collinear. -/
def pointsCollinear (p1 p2 p3 : Point2D) (tolerance : ℝ) : Prop :=
  let dxq := p3.x - p1.x
  let dyq := p3.y - p1.y
  let len := Real.sqrt (((dxq ^ 2 + dyq ^ 2 : ℚ) : ℝ))
  if len < 1 / 10 ^ 6 then True
  else
    |((dyq * p2.x - dxq * p2.y + p3.x * p1.y - p3.y * p1.x : ℚ) : ℝ)| / len
      < tolerance

/-- Case 1 of `_can_merge_walls`: `w1.end` connects to `w2.start`. -/
def condEndToStart (w1 w2 : Wall) (ptol ctol : ℝ) : Prop :=
  pointsClose w1.centerline.stop w2.centerline.start ptol
  ∧ pointsCollinear w1.centerline.start w1.centerline.stop
      w2.centerline.stop ctol

/-- Case 2 of `_can_merge_walls`: `w1.start` connects to `w2.end`. -/
def condStartToEnd (w1 w2 : Wall) (ptol ctol : ℝ) : Prop :=
  pointsClose w1.centerline.start w2.centerline.stop ptol
  ∧ pointsCollinear w1.centerline.stop w1.centerline.start
      w2.centerline.start ctol

/-- Case 3 of `_can_merge_walls`: `w1.end` connects to `w2.end`. -/
def condEndToEnd (w1 w2 : Wall) (ptol ctol : ℝ) : Prop :=
  pointsClose w1.centerline.stop w2.centerline.stop ptol
  ∧ pointsCollinear w1.centerline.start w1.centerline.stop
      w2.centerline.start ctol

/-- Case 4 of `_can_merge_walls`: `w1.start` connects to `w2.start`. -/
def condStartToStart (w1 w2 : Wall) (ptol ctol : ℝ) : Prop :=
  pointsClose w1.centerline.start w2.centerline.start ptol
  ∧ pointsCollinear w1.centerline.stop w1.centerline.start
      w2.centerline.stop ctol

/-- `_can_merge_walls`: thickness/height gate, angle gate, then the four
connection cases in fixed order, first satisfied case winning. -/
def can_merge_walls (w1 w2 : Wall) (atol ptol ctol : ℝ) : Bool × String :=
  if 1 < |w1.thickness - w2.thickness| ∨ 1 < |w1.height - w2.height| then
    (false, "")
  else if ¬ anglesClose w1.centerline.angle w2.centerline.angle atol then
    (false, "")
  else if condEndToStart w1 w2 ptol ctol then (true, "end_to_start")
  else if condStartToEnd w1 w2 ptol ctol then (true, "start_to_end")
  else if condEndToEnd w1 w2 ptol ctol then (true, "end_to_end")
  else if condStartToStart w1 w2 ptol ctol then (true, "start_to_start")
  else (false, "")

/-- `_merge_two_walls`: `none` models the `ValueError` on an invalid
connection type. -/
def merge_two_walls (w1 w2 : Wall) (ct : String) : Option Wall :=
  let se : Option (Point2D × Point2D) :=
    if ct = "end_to_start" then
      some (w1.centerline.start, w2.centerline.stop)
    else if ct = "start_to_end" then
      some (w2.centerline.start, w1.centerline.stop)
    else if ct = "end_to_end" then
      some (w1.centerline.start, w2.centerline.start)
    else if ct = "start_to_start" then
      some (w1.centerline.stop, w2.centerline.stop)
    else none
  se.map (fun p =>
    { centerline := { start := p.1, stop := p.2, layer := w1.centerline.layer }
      thickness := w1.thickness
      height := w1.height
      confidence := (w1.confidence + w2.confidence) / 2
      source_layer := w1.source_layer })

/-! A concrete end-to-start pair for the merger. -/

def wallSegA : Wall :=
  { centerline := { start := ⟨0, 0⟩, stop := ⟨1000, 0⟩, layer := "A-WALL" }
    thickness := 150, height := 3000, confidence := 8 / 10
    source_layer := some "A-WALL" }

def wallSegB : Wall :=
  { centerline := { start := ⟨1000, 0⟩, stop := ⟨2000, 0⟩, layer := "A-WALL" }
    thickness := 150, height := 3000, confidence := 6 / 10
    source_layer := some "A-WALL" }

/-! ### Wall intersection detection (src/d23d/detection/wall_intersections.py) -/

/-- `WallIntersection` of wall_intersections.py. -/
structure WallIntersection where
  point : Point2D
  wall_indices : List ℕ
deriving DecidableEq, Repr, Inhabited

/-- Step 1 of `detect_wall_intersections`: every wall contributes its two
endpoints as candidates, in wall order. -/
def endpointCandidates (walls : List Wall) : List (Point2D × ℕ × String) :=
  walls.enum.bind (fun p =>
    [(p.2.centerline.start, p.1, "start"), (p.2.centerline.stop, p.1, "end")])

/-- `_lines_intersect`: 2×2 determinant solve with a tolerance that extends
past segment ends by `tolerance / max(len1, len2)`. -/
def linesIntersect (p1 p2 p3 p4 : Point2D) (tol : ℝ) : Option Point2D :=
  let denom := (p1.x - p2.x) * (p3.y - p4.y) - (p1.y - p2.y) * (p3.x - p4.x)
  if |denom| < 1 / 10 ^ 10 then none
  else
    let t := ((p1.x - p3.x) * (p3.y - p4.y) - (p1.y - p3.y) * (p3.x - p4.x))
      / denom
    let u := -((p1.x - p2.x) * (p1.y - p3.y) - (p1.y - p2.y) * (p1.x - p3.x))
      / denom
    let tp := tol / max
      (Real.sqrt (((p2.x - p1.x) ^ 2 + (p2.y - p1.y) ^ 2 : ℚ) : ℝ))
      (Real.sqrt (((p4.x - p3.x) ^ 2 + (p4.y - p3.y) ^ 2 : ℚ) : ℝ))
    if -tp ≤ ((t : ℚ) : ℝ) ∧ ((t : ℚ) : ℝ) ≤ 1 + tp
        ∧ -tp ≤ ((u : ℚ) : ℝ) ∧ ((u : ℚ) : ℝ) ≤ 1 + tp then
      some ⟨p1.x + t * (p2.x - p1.x), p1.y + t * (p2.y - p1.y)⟩
    else none

/-- Inner loop of step 2: test wall `i` against each later wall `j`; a
crossing is kept only if it is not within `etol` of an already-collected
candidate point. -/
def crossingInner (etol itol : ℝ) (i : ℕ) (w1 : Wall) :
    List (ℕ × Wall) → List (Point2D × ℕ × String) →
      List (Point2D × ℕ × String)
  | [], acc => acc
  | (j, w2) :: rest, acc =>
    crossingInner etol itol i w1 rest
      (match linesIntersect w1.centerline.start w1.centerline.stop
          w2.centerline.start w2.centerline.stop itol with
       | none => acc
       | some pt =>
         if ∃ c ∈ acc, c.1.distance_to pt < etol then acc
         else acc ++ [(pt, i, "crossing"), (pt, j, "crossing")])

/-- Step 2 of `detect_wall_intersections`: all ordered pairs `i < j`. -/
def crossingPass (etol itol : ℝ) :
    List (ℕ × Wall) → List (Point2D × ℕ × String) →
      List (Point2D × ℕ × String)
  | [], acc => acc
  | (i, w1) :: rest, acc =>
    crossingPass etol itol rest (crossingInner etol itol i w1 rest acc)

/-- Candidate lookup by index (indices produced by `List.range`, in range). -/
def candAt (cands : List (Point2D × ℕ × String)) (k : ℕ) :
    Point2D × ℕ × String :=
  cands.getD k default

/-- The group seeded at `idx`: the seed plus every other unprocessed
candidate whose point is within `etol` of the seed point (one hop from the
seed, in candidate order). -/
def nearbyOf (cands : List (Point2D × ℕ × String)) (etol : ℝ) (idx : ℕ)
    (processed : List ℕ) : List ℕ :=
  idx :: (List.range cands.length).filter (fun o =>
    decide (o ≠ idx ∧ o ∉ processed
      ∧ (candAt cands idx).1.distance_to (candAt cands o).1 < etol))

/-- Ascending insertion for `sorted(...)` on wall indices. -/
def insertNat (x : ℕ) : List ℕ → List ℕ
  | [] => [x]
  | y :: ys => if x < y then x :: y :: ys else y :: insertNat x ys

/-- `sorted(...)` on a list of wall indices. -/
def sortNat (l : List ℕ) : List ℕ :=
  l.foldl (fun acc x => insertNat x acc) []

/-- Step 3 of `detect_wall_intersections`: scan candidate indices in order,
group the unprocessed ones one hop from each seed, report a group whose
members reference more than one distinct wall, with the arithmetic mean of
the member points as the intersection point. -/
def mkGroups (cands : List (Point2D × ℕ × String)) (etol : ℝ) :
    List ℕ → List ℕ → List WallIntersection
  | [], _ => []
  | idx :: rest, processed =>
    if idx ∈ processed then mkGroups cands etol rest processed
    else
      let nearby := nearbyOf cands etol idx processed
      let wallIdxs := sortNat (nearby.map (fun k => (candAt cands k).2.1)).dedup
      if 1 < wallIdxs.length then
        { point := ⟨(nearby.map (fun k => (candAt cands k).1.x)).sum
                      / nearby.length,
                    (nearby.map (fun k => (candAt cands k).1.y)).sum
                      / nearby.length⟩
          wall_indices := wallIdxs }
          :: mkGroups cands etol rest (processed ++ nearby)
      else mkGroups cands etol rest (processed ++ nearby)

/-- `detect_wall_intersections`. -/
def detect_wall_intersections (walls : List Wall) (etol itol : ℝ) :
    List WallIntersection :=
  if walls.length < 2 then []
  else
    let cands := crossingPass etol itol walls.enum (endpointCandidates walls)
    mkGroups cands etol (List.range cands.length) []

/-! The C5 scenario: three parallel walls whose start points form a
proximity chain (0,0) – (24,32) – (48,64) with steps of length 40 < 50 but
overall distance 80 ≥ 50. -/

def chainWall0 : Wall :=
  { centerline := { start := ⟨0, 0⟩, stop := ⟨2000, 0⟩, layer := "A-WALL" }
    thickness := 150, height := 3000, confidence := 7 / 10
    source_layer := some "A-WALL" }

def chainWall1 : Wall :=
  { centerline := { start := ⟨24, 32⟩, stop := ⟨2024, 32⟩, layer := "A-WALL" }
    thickness := 150, height := 3000, confidence := 7 / 10
    source_layer := some "A-WALL" }

def chainWall2 : Wall :=
  { centerline := { start := ⟨48, 64⟩, stop := ⟨2048, 64⟩, layer := "A-WALL" }
    thickness := 150, height := 3000, confidence := 7 / 10
    source_layer := some "A-WALL" }

def chainWalls : List Wall := [chainWall0, chainWall1, chainWall2]

def chainIt1 : WallIntersection :=
  { point := ⟨12, 16⟩, wall_indices := [0, 1] }

def chainIt2 : WallIntersection :=
  { point := ⟨2012, 16⟩, wall_indices := [0, 1] }

/-! ### Wall adjustment at intersections
(`adjust_walls_at_intersections`, wall_intersections.py lines 200–309)

Snapping replaces an endpoint by the (rational) intersection point; the
L-corner extension then moves it along a unit vector, so adjusted
coordinates are real numbers. -/

/-- A point with real coordinates (an adjusted wall endpoint). -/
structure PointR where
  x : ℝ
  y : ℝ

/-- A wall centerline with real endpoints. -/
structure LineR where
  start : PointR
  stop : PointR
  layer : String

/-- A wall record after adjustment. -/
structure WallR where
  centerline : LineR
  thickness : ℚ
  height : ℚ
  confidence : ℚ
  source_layer : Option String

/-- Inclusion of drawing points into adjusted points. -/
def toPointR (p : Point2D) : PointR := ⟨(p.x : ℝ), (p.y : ℝ)⟩

/-- A wall passed through unchanged. -/
def toWallR (w : Wall) : WallR :=
  { centerline := { start := toPointR w.centerline.start
                    stop := toPointR w.centerline.stop
                    layer := w.centerline.layer }
    thickness := w.thickness
    height := w.height
    confidence := w.confidence
    source_layer := w.source_layer }

/-- Euclidean distance between adjusted points. -/
def PointR.dist (p q : PointR) : ℝ :=
  Real.sqrt ((p.x - q.x) ^ 2 + (p.y - q.y) ^ 2)

/-- The L-corner extension: move `p` away from the far endpoint
`(farx, fary)` by `ext` along the unit vector from the far endpoint through
`p`; no movement when the direction is degenerate (`length = 0`). -/
def extendAwayFrom (p : PointR) (farx fary : ℚ) (ext : ℝ) : PointR :=
  let dxR := p.x - (farx : ℝ)
  let dyR := p.y - (fary : ℝ)
  let len := Real.sqrt (dxR ^ 2 + dyR ^ 2)
  if 0 < len then ⟨p.x + dxR / len * ext, p.y + dyR / len * ext⟩ else p

/-- The body of the per-wall loop over one intersection: snap the endpoints
within `snapTol` of the intersection point, then (for an exactly-two-wall
intersection, with extension enabled) extend each snapped endpoint away
from the wall original far endpoint by half the thickness of the other
wall of the intersection. -/
def adjustStep (walls : List Wall) (i : ℕ) (w : Wall) (snapTol : ℝ)
    (extend : Bool) (st : PointR × PointR × Bool) (it : WallIntersection) :
    PointR × PointR × Bool :=
  if i ∈ it.wall_indices then
    let sNear := w.centerline.start.distance_to it.point < snapTol
    let eNear := w.centerline.stop.distance_to it.point < snapTol
    let s1 := if sNear then toPointR it.point else st.1
    let e1 := if eNear then toPointR it.point else st.2.1
    let adj := if sNear ∨ eNear then true else st.2.2
    if extend = true ∧ it.wall_indices.length = 2 then
      let otherIdx := it.wall_indices.getD (1 - it.wall_indices.indexOf i) 0
      let ext := (((walls.getD otherIdx default).thickness : ℚ) : ℝ) / 2
      let s2 := if sNear then
          extendAwayFrom s1 w.centerline.stop.x w.centerline.stop.y ext
        else s1
      let e2 := if eNear then
          extendAwayFrom e1 w.centerline.start.x w.centerline.start.y ext
        else e1
      (s2, e2, adj)
    else (s1, e1, adj)
  else st

/-- `adjust_walls_at_intersections`. -/
def adjust_walls_at_intersections (walls : List Wall)
    (its : List WallIntersection) (snapTol : ℝ) (extend : Bool) :
    List WallR :=
  if its = [] then walls.map toWallR
  else
    walls.enum.map (fun p =>
      let st := its.foldl (adjustStep walls p.1 p.2 snapTol extend)
        (toPointR p.2.centerline.start, toPointR p.2.centerline.stop, false)
      if st.2.2 = true then
        { centerline := { start := st.1, stop := st.2.1
                          layer := p.2.centerline.layer }
          thickness := p.2.thickness
          height := p.2.height
          confidence := p.2.confidence
          source_layer := p.2.source_layer }
      else toWallR p.2)

/-! An L-corner witness: two perpendicular walls sharing the origin. -/

def cornerWallA : Wall :=
  { centerline := { start := ⟨0, 0⟩, stop := ⟨1000, 0⟩, layer := "A-WALL" }
    thickness := 150, height := 3000, confidence := 7 / 10
    source_layer := some "A-WALL" }

def cornerWallB : Wall :=
  { centerline := { start := ⟨0, 0⟩, stop := ⟨0, 800⟩, layer := "A-WALL" }
    thickness := 150, height := 3000, confidence := 7 / 10
    source_layer := some "A-WALL" }

def cornerIt : WallIntersection := { point := ⟨0, 0⟩, wall_indices := [0, 1] }

/-! ### Theorems -/

theorem Point2D.distSq_nonneg (p q : Point2D) : 0 ≤ p.distSq q :=
  add_nonneg (sq_nonneg _) (sq_nonneg _)

theorem Point2D.distance_to_lt_iff (p q : Point2D) {c : ℝ} (hc : 0 < c) :
    p.distance_to q < c ↔ ((p.distSq q : ℚ) : ℝ) < c ^ 2 :=
  Real.sqrt_lt' hc

theorem Point2D.distance_to_self (p : Point2D) : p.distance_to p = 0 := by
  simp [Point2D.distance_to, Point2D.distSq]

theorem Point2D.distance_to_nonneg (p q : Point2D) : 0 ≤ p.distance_to q :=
  Real.sqrt_nonneg _

theorem arctan_nonneg_of_nonneg {x : ℝ} (h : 0 ≤ x) : 0 ≤ Real.arctan x := by
  simpa [Real.arctan_zero] using Real.arctan_strictMono.monotone h

theorem arctan_nonpos_of_nonpos {x : ℝ} (h : x ≤ 0) : Real.arctan x ≤ 0 := by
  simpa [Real.arctan_zero] using Real.arctan_strictMono.monotone h

theorem atan2_of_pos {y x : ℝ} (hx : 0 < x) :
    atan2 y x = Real.arctan (y / x) := by
  rw [atan2, if_pos hx]

theorem atan2_of_neg_nonneg {y x : ℝ} (hx : x < 0) (hy : 0 ≤ y) :
    atan2 y x = Real.arctan (y / x) + Real.pi := by
  rw [atan2, if_neg (by linarith), if_pos hx, if_pos hy]

theorem atan2_of_neg_neg {y x : ℝ} (hx : x < 0) (hy : y < 0) :
    atan2 y x = Real.arctan (y / x) - Real.pi := by
  rw [atan2, if_neg (by linarith), if_pos hx, if_neg (by linarith)]

theorem atan2_zero_of_pos_y {y : ℝ} (hy : 0 < y) :
    atan2 y 0 = Real.pi / 2 := by
  rw [atan2, if_neg (by linarith), if_neg (by linarith), if_pos hy]

theorem atan2_zero_of_neg_y {y : ℝ} (hy : y < 0) :
    atan2 y 0 = -(Real.pi / 2) := by
  rw [atan2, if_neg (by linarith), if_neg (by linarith),
    if_neg (by linarith), if_pos hy]

theorem atan2_zero_zero : atan2 0 0 = 0 := by
  rw [atan2]
  norm_num

theorem abs_atan2_le_pi (y x : ℝ) : |atan2 y x| ≤ Real.pi := by
  have hpi : 0 < Real.pi := Real.pi_pos
  have hb := Real.arctan_lt_pi_div_two (y / x)
  have hb' := Real.neg_pi_div_two_lt_arctan (y / x)
  rcases lt_trichotomy x 0 with hx | hx | hx
  · rcases le_or_lt 0 y with hy | hy
    · rw [atan2_of_neg_nonneg hx hy, abs_le]
      have ha : Real.arctan (y / x) ≤ 0 :=
        arctan_nonpos_of_nonpos (div_nonpos_of_nonneg_of_nonpos hy hx.le)
      constructor <;> linarith
    · rw [atan2_of_neg_neg hx hy, abs_le]
      have ha : 0 ≤ Real.arctan (y / x) :=
        arctan_nonneg_of_nonneg (le_of_lt (div_pos_of_neg_of_neg hy hx))
      constructor <;> linarith
  · subst hx
    rcases lt_trichotomy y 0 with hy | hy | hy
    · rw [atan2_zero_of_neg_y hy, abs_le]
      constructor <;> linarith
    · subst hy
      rw [atan2_zero_zero]
      simpa using hpi.le
    · rw [atan2_zero_of_pos_y hy, abs_le]
      constructor <;> linarith
  · rw [atan2_of_pos hx, abs_le]
    constructor <;> linarith

/-- Reversing a segment replaces `|atan2 y x|` by `π - |atan2 y x|`
(for a non-degenerate segment). -/
theorem abs_atan2_neg_neg {y x : ℝ} (h : ¬(x = 0 ∧ y = 0)) :
    |atan2 (-y) (-x)| = Real.pi - |atan2 y x| := by
  have hpi : 0 < Real.pi := Real.pi_pos
  have hb := Real.arctan_lt_pi_div_two (y / x)
  have hb' := Real.neg_pi_div_two_lt_arctan (y / x)
  have hdiv : (-y) / (-x) = y / x := by
    rw [neg_div_neg_eq]
  rcases lt_trichotomy x 0 with hx | hx | hx
  · -- x < 0 : the reversed segment has -x > 0
    rcases le_or_lt 0 y with hy | hy
    · have ha : Real.arctan (y / x) ≤ 0 :=
        arctan_nonpos_of_nonpos (div_nonpos_of_nonneg_of_nonpos hy hx.le)
      rw [atan2_of_pos (y := -y) (by linarith), hdiv,
        atan2_of_neg_nonneg hx hy]
      rw [abs_of_nonpos ha, abs_of_nonneg (by linarith)]
      ring
    · have ha : 0 ≤ Real.arctan (y / x) :=
        arctan_nonneg_of_nonneg (le_of_lt (div_pos_of_neg_of_neg hy hx))
      rw [atan2_of_pos (y := -y) (by linarith), hdiv,
        atan2_of_neg_neg hx hy]
      rw [abs_of_nonneg ha, abs_of_nonpos (by linarith)]
      ring
  · -- x = 0 : vertical-ish segment
    subst hx
    rcases lt_trichotomy y 0 with hy | hy | hy
    · rw [neg_zero]
      rw [atan2_zero_of_pos_y (y := -y) (by linarith),
        atan2_zero_of_neg_y hy]
      rw [abs_of_nonneg (by positivity), abs_of_nonpos (by linarith)]
      ring
    · exact absurd ⟨rfl, hy⟩ h
    · rw [neg_zero]
      rw [atan2_zero_of_neg_y (y := -y) (by linarith),
        atan2_zero_of_pos_y hy]
      rw [abs_of_nonpos (by linarith), abs_of_nonneg (by linarith)]
      ring
  · -- 0 < x : atan2 y x = arctan (y/x)
    rcases le_or_lt 0 y with hy | hy
    · rcases eq_or_lt_of_le hy with hy0 | hy0
      · -- y = 0 : angle 0 flips to π
        rw [← hy0]
        rw [neg_zero,
          atan2_of_neg_nonneg (y := 0) (by linarith) le_rfl,
          atan2_of_pos hx]
        rw [zero_div, zero_div, Real.arctan_zero, zero_add,
          abs_of_nonneg hpi.le]
        simp
      · have ha : 0 ≤ Real.arctan (y / x) :=
          arctan_nonneg_of_nonneg (le_of_lt (div_pos hy0 hx))
        rw [atan2_of_neg_neg (by linarith) (by linarith), hdiv,
          atan2_of_pos hx]
        rw [abs_of_nonneg ha, abs_of_nonpos (by linarith)]
        ring
    · have ha : Real.arctan (y / x) ≤ 0 :=
        arctan_nonpos_of_nonpos (le_of_lt (div_neg_of_neg_of_pos hy hx))
      rw [atan2_of_neg_nonneg (by linarith) (by linarith), hdiv,
        atan2_of_pos hx]
      rw [abs_of_nonpos ha, abs_of_nonneg (by linarith)]
      ring

theorem reverse_dx (l : Line2D) : l.reverse.dx = -l.dx := by
  simp [Line2D.reverse, Line2D.dx]

theorem reverse_dy (l : Line2D) : l.reverse.dy = -l.dy := by
  simp [Line2D.reverse, Line2D.dy]

/-- C7: horizontal/vertical classification is invariant under swapping the
segment's start and end points. -/
theorem orientation_classification_reversal_invariant
    (l : Line2D) (tolerance : ℝ) :
    (l.reverse.is_horizontal tolerance ↔ l.is_horizontal tolerance) ∧
    (l.reverse.is_vertical tolerance ↔ l.is_vertical tolerance) := by
  by_cases hdeg : ((l.dx : ℚ) : ℝ) = 0 ∧ ((l.dy : ℚ) : ℝ) = 0
  · -- degenerate segment: both directions give atan2 0 0 = 0
    have h1 : l.reverse.angle = l.angle := by
      unfold Line2D.angle
      rw [reverse_dx, reverse_dy, Rat.cast_neg, Rat.cast_neg,
        hdeg.1, hdeg.2]
      norm_num
    rw [Line2D.is_horizontal, Line2D.is_horizontal,
      Line2D.is_vertical, Line2D.is_vertical, h1]
    exact ⟨Iff.rfl, Iff.rfl⟩
  · have key : |l.reverse.angle| = Real.pi - |l.angle| := by
      unfold Line2D.angle
      rw [reverse_dx, reverse_dy, Rat.cast_neg, Rat.cast_neg]
      exact abs_atan2_neg_neg hdeg
    have hle : |l.angle| ≤ Real.pi := abs_atan2_le_pi _ _
    have hge : 0 ≤ |l.angle| := abs_nonneg _
    have h1 : |(Real.pi - |l.angle|) - Real.pi| = |l.angle| := by
      rw [show (Real.pi - |l.angle|) - Real.pi = -(|l.angle|) by ring,
        abs_neg, abs_of_nonneg hge]
    have h2 : |(|l.angle|) - Real.pi| = Real.pi - |l.angle| := by
      rw [abs_of_nonpos (by linarith), neg_sub]
    constructor
    · rw [Line2D.is_horizontal, Line2D.is_horizontal, key, h1, h2]
      exact or_comm
    · rw [Line2D.is_vertical, Line2D.is_vertical, key,
        show Real.pi - |l.angle| - Real.pi / 2
          = -((|l.angle|) - Real.pi / 2) by ring, abs_neg]

theorem findIntersections_length (hls vls : List GridLine) :
    (findIntersections hls vls).length = hls.length * vls.length := by
  induction hls with
  | nil => simp [findIntersections]
  | cons hd tl ih =>
    simp only [findIntersections, List.cons_bind, List.length_append,
      List.length_map, List.length_cons] at *
    rw [ih, Nat.succ_mul, Nat.add_comm]

theorem detectClustered_inter_length (cfg : GridCfg) (h v : List Line2D)
    (g : BuildingGrid) (hd : detectClustered cfg h v = .ok (some g)) :
    g.intersections.length
      = g.horizontal_lines.length * g.vertical_lines.length := by
  unfold detectClustered at hd
  split at hd
  · simp at hd
  · split at hd
    · simp at hd
    · split at hd
      · simp at hd
      · split at hd
        · simp at hd
        · simp only [Except.ok.injEq, Option.some.injEq] at hd
          subst hd
          exact findIntersections_length _ _

/-- C1: for every successfully detected grid, the intersection list is the
fully materialized cross product: its length is the number of horizontal
grid lines times the number of vertical grid lines. -/
theorem grid_intersections_are_full_cross_product
    (cfg : GridCfg) (lines : List Line2D) (g : BuildingGrid)
    (hdet : detect cfg lines = .ok (some g)) :
    g.intersections.length
      = g.horizontal_lines.length * g.vertical_lines.length := by
  unfold detect at hdet
  split at hdet
  · simp at hdet
  · exact detectClustered_inter_length _ _ _ _ hdet

/-- C6: detection returns `None` (without raising) when the filtered line
count is below `2 × min_grid_lines`, or when either orientation cluster has
fewer than `min_grid_lines` lines. -/
theorem grid_detect_returns_none_on_insufficient_lines
    (cfg : GridCfg) (lines : List Line2D)
    (h : (lengthFilter cfg lines).length < cfg.min_grid_lines * 2
      ∨ (clusterByOrientation cfg (lengthFilter cfg lines)).1.length
          < cfg.min_grid_lines
      ∨ (clusterByOrientation cfg (lengthFilter cfg lines)).2.length
          < cfg.min_grid_lines) :
    detect cfg lines = .ok none := by
  unfold detect
  by_cases hA : (lengthFilter cfg lines).length < cfg.min_grid_lines * 2
  · rw [if_pos hA]
  · rw [if_neg hA]
    unfold detectClustered
    rcases h with h | h | h
    · exact absurd h hA
    · rw [if_pos (Or.inl h)]
    · rw [if_pos (Or.inr h)]

theorem grid_detect_returns_none_witness :
    ((lengthFilter defaultGridCfg []).length < defaultGridCfg.min_grid_lines * 2
      ∨ (clusterByOrientation defaultGridCfg
            (lengthFilter defaultGridCfg [])).1.length
          < defaultGridCfg.min_grid_lines
      ∨ (clusterByOrientation defaultGridCfg
            (lengthFilter defaultGridCfg [])).2.length
          < defaultGridCfg.min_grid_lines)
    ∧ detect defaultGridCfg [] = .ok none := by
  have h : (lengthFilter defaultGridCfg []).length
      < defaultGridCfg.min_grid_lines * 2 := by
    rw [show lengthFilter defaultGridCfg [] = [] from rfl]
    decide
  exact ⟨Or.inl h,
    grid_detect_returns_none_on_insufficient_lines defaultGridCfg [] (Or.inl h)⟩

theorem length_eval (l : Line2D) (c : ℝ) (hc : 0 ≤ c)
    (h : ((l.start.distSq l.stop : ℚ) : ℝ) = c ^ 2) : l.length = c := by
  unfold Line2D.length Point2D.distance_to
  rw [h, Real.sqrt_sq hc]

theorem angle_of_pos_dx_zero_dy (l : Line2D) (hdx : 0 < l.dx)
    (hdy : l.dy = 0) : l.angle = 0 := by
  unfold Line2D.angle
  rw [hdy, Rat.cast_zero, atan2_of_pos (by exact_mod_cast hdx), zero_div,
    Real.arctan_zero]

theorem angle_of_zero_dx_pos_dy (l : Line2D) (hdx : l.dx = 0)
    (hdy : 0 < l.dy) : l.angle = Real.pi / 2 := by
  unfold Line2D.angle
  rw [hdx, Rat.cast_zero, atan2_zero_of_pos_y (by exact_mod_cast hdy)]

theorem is_horizontal_of_angle_zero (l : Line2D) (h : l.angle = 0)
    {tol : ℝ} (htol : 0 < tol) : l.is_horizontal tol := by
  left
  rw [h]
  simpa using htol

theorem not_horizontal_of_angle_half_pi (l : Line2D)
    (h : l.angle = Real.pi / 2) {tol : ℝ} (htol : tol ≤ 1) :
    ¬ l.is_horizontal tol := by
  have hpi : 3 < Real.pi := Real.pi_gt_three
  have h2 : |Real.pi / 2| = Real.pi / 2 :=
    abs_of_nonneg (by linarith)
  rintro (h1 | h1)
  · rw [h, h2] at h1
    linarith
  · rw [h, h2, abs_of_nonpos (by linarith)] at h1
    linarith

theorem is_vertical_of_angle_half_pi (l : Line2D) (h : l.angle = Real.pi / 2)
    {tol : ℝ} (htol : 0 < tol) : l.is_vertical tol := by
  have hpi : 3 < Real.pi := Real.pi_gt_three
  have h2 : |Real.pi / 2| = Real.pi / 2 :=
    abs_of_nonneg (by linarith)
  unfold Line2D.is_vertical
  rw [h, h2]
  simpa using htol

theorem gridH1_length : gridH1.length = 6000 := by
  apply length_eval _ _ (by norm_num)
  norm_num [gridH1, Point2D.distSq]

theorem gridH2_length : gridH2.length = 6000 := by
  apply length_eval _ _ (by norm_num)
  norm_num [gridH2, Point2D.distSq]

theorem gridV1_length : gridV1.length = 3000 := by
  apply length_eval _ _ (by norm_num)
  norm_num [gridV1, Point2D.distSq]

theorem gridV2_length : gridV2.length = 3000 := by
  apply length_eval _ _ (by norm_num)
  norm_num [gridV2, Point2D.distSq]

theorem gridDemo_filter :
    lengthFilter defaultGridCfg gridDemoLines = gridDemoLines := by
  have h1 : ((defaultGridCfg.min_line_length : ℚ) : ℝ) ≤ gridH1.length := by
    rw [gridH1_length]; norm_num [defaultGridCfg]
  have h2 : ((defaultGridCfg.min_line_length : ℚ) : ℝ) ≤ gridH2.length := by
    rw [gridH2_length]; norm_num [defaultGridCfg]
  have h3 : ((defaultGridCfg.min_line_length : ℚ) : ℝ) ≤ gridV1.length := by
    rw [gridV1_length]; norm_num [defaultGridCfg]
  have h4 : ((defaultGridCfg.min_line_length : ℚ) : ℝ) ≤ gridV2.length := by
    rw [gridV2_length]; norm_num [defaultGridCfg]
  simp [gridDemoLines, lengthFilter, h1, h2, h3, h4]

theorem gridDemo_cluster :
    clusterByOrientation defaultGridCfg gridDemoLines
      = ([gridH1, gridH2], [gridV1, gridV2]) := by
  have a1 : gridH1.angle = 0 :=
    angle_of_pos_dx_zero_dy _ (by norm_num [gridH1, Line2D.dx])
      (by norm_num [gridH1, Line2D.dy])
  have a2 : gridH2.angle = 0 :=
    angle_of_pos_dx_zero_dy _ (by norm_num [gridH2, Line2D.dx])
      (by norm_num [gridH2, Line2D.dy])
  have a3 : gridV1.angle = Real.pi / 2 :=
    angle_of_zero_dx_pos_dy _ (by norm_num [gridV1, Line2D.dx])
      (by norm_num [gridV1, Line2D.dy])
  have a4 : gridV2.angle = Real.pi / 2 :=
    angle_of_zero_dx_pos_dy _ (by norm_num [gridV2, Line2D.dx])
      (by norm_num [gridV2, Line2D.dy])
  have htol0 : (0 : ℝ) < ((defaultGridCfg.angle_tolerance : ℚ) : ℝ) := by
    norm_num [defaultGridCfg]
  have htol1 : ((defaultGridCfg.angle_tolerance : ℚ) : ℝ) ≤ 1 := by
    norm_num [defaultGridCfg]
  have hh1 := is_horizontal_of_angle_zero _ a1 htol0
  have hh2 := is_horizontal_of_angle_zero _ a2 htol0
  have hnh3 := not_horizontal_of_angle_half_pi _ a3 htol1
  have hnh4 := not_horizontal_of_angle_half_pi _ a4 htol1
  have hv3 := is_vertical_of_angle_half_pi _ a3 htol0
  have hv4 := is_vertical_of_angle_half_pi _ a4 htol0
  simp [clusterByOrientation, gridDemoLines, hh1, hh2, hnh3, hnh4, hv3, hv4]

theorem gridDemo_detectClustered :
    detectClustered defaultGridCfg [gridH1, gridH2] [gridV1, gridV2]
      = .ok (some gridDemoResult) := by
  have lA : hGridLabel 0 = "A" := by decide
  have lB : hGridLabel 1 = "B" := by decide
  have t1 : toString (1 : ℕ) = "1" := by decide
  have t2 : toString (2 : ℕ) = "2" := by decide
  norm_num [detectClustered, detectGridLines, sortPositions, insertPos, linePos,
    consecutiveGaps, findDominantSpacing, medianQ, sortQ, insertQ,
    gridLineConfidence, qdiv, labelGridLines, List.enum, List.enumFrom,
    findIntersections, checkRegularity, truthySpacings, meanQ, isSpacingRegular,
    calculateConfidence, minListQ, maxListQ, calculateGridBbox,
    defaultGridCfg, gridH1, gridH2, gridV1, gridV2, gridDemoResult,
    List.range_succ, List.mapM, List.mapM.loop,
    List.filterMap_cons, List.filterMap_nil, List.sum_cons, List.sum_nil,
    List.all_cons, List.all_nil,
    Except.instMonad, Except.bind, Except.pure, List.cons_ne_nil,
    lA, lB, t1, t2]

theorem gridDemo_detect :
    detect defaultGridCfg gridDemoLines = .ok (some gridDemoResult) := by
  unfold detect
  rw [gridDemo_filter, gridDemo_cluster]
  rw [if_neg (by norm_num [gridDemoLines, defaultGridCfg])]
  exact gridDemo_detectClustered

theorem grid_intersections_are_full_cross_product_witness :
    detect defaultGridCfg gridDemoLines = .ok (some gridDemoResult)
    ∧ gridDemoResult.intersections.length
        = gridDemoResult.horizontal_lines.length
          * gridDemoResult.vertical_lines.length :=
  ⟨gridDemo_detect,
    grid_intersections_are_full_cross_product defaultGridCfg gridDemoLines
      gridDemoResult gridDemo_detect⟩

theorem coincidentH_length : coincidentH.length = 1000 := by
  apply length_eval _ _ (by norm_num)
  norm_num [coincidentH, Point2D.distSq]

theorem coincidentV1_length : coincidentV1.length = 1000 := by
  apply length_eval _ _ (by norm_num)
  norm_num [coincidentV1, Point2D.distSq]

theorem coincidentV2_length : coincidentV2.length = 1000 := by
  apply length_eval _ _ (by norm_num)
  norm_num [coincidentV2, Point2D.distSq]

theorem coincident_filter :
    lengthFilter defaultGridCfg coincidentLines = coincidentLines := by
  have h1 : ((defaultGridCfg.min_line_length : ℚ) : ℝ) ≤ coincidentH.length := by
    rw [coincidentH_length]; norm_num [defaultGridCfg]
  have h3 : ((defaultGridCfg.min_line_length : ℚ) : ℝ) ≤ coincidentV1.length := by
    rw [coincidentV1_length]; norm_num [defaultGridCfg]
  have h4 : ((defaultGridCfg.min_line_length : ℚ) : ℝ) ≤ coincidentV2.length := by
    rw [coincidentV2_length]; norm_num [defaultGridCfg]
  simp [coincidentLines, lengthFilter, h1, h3, h4]

theorem coincident_cluster :
    clusterByOrientation defaultGridCfg coincidentLines
      = ([coincidentH, coincidentH], [coincidentV1, coincidentV2]) := by
  have a1 : coincidentH.angle = 0 :=
    angle_of_pos_dx_zero_dy _ (by norm_num [coincidentH, Line2D.dx])
      (by norm_num [coincidentH, Line2D.dy])
  have a3 : coincidentV1.angle = Real.pi / 2 :=
    angle_of_zero_dx_pos_dy _ (by norm_num [coincidentV1, Line2D.dx])
      (by norm_num [coincidentV1, Line2D.dy])
  have a4 : coincidentV2.angle = Real.pi / 2 :=
    angle_of_zero_dx_pos_dy _ (by norm_num [coincidentV2, Line2D.dx])
      (by norm_num [coincidentV2, Line2D.dy])
  have htol0 : (0 : ℝ) < ((defaultGridCfg.angle_tolerance : ℚ) : ℝ) := by
    norm_num [defaultGridCfg]
  have htol1 : ((defaultGridCfg.angle_tolerance : ℚ) : ℝ) ≤ 1 := by
    norm_num [defaultGridCfg]
  have hh1 := is_horizontal_of_angle_zero _ a1 htol0
  have hnh3 := not_horizontal_of_angle_half_pi _ a3 htol1
  have hnh4 := not_horizontal_of_angle_half_pi _ a4 htol1
  have hv3 := is_vertical_of_angle_half_pi _ a3 htol0
  have hv4 := is_vertical_of_angle_half_pi _ a4 htol0
  simp [clusterByOrientation, coincidentLines, hh1, hnh3, hnh4, hv3, hv4]

/-- C9: an input that passes both minimum-line-count checks (4 filtered
lines, clusters of size 2 and 2) on which grid detection dies with a
division-by-zero error instead of returning a grid or `None`, because the
two horizontal lines coincide and the dominant spacing is 0. -/
theorem grid_detect_division_by_zero_on_coincident_lines :
    (clusterByOrientation defaultGridCfg
        (lengthFilter defaultGridCfg coincidentLines)).1.length = 2
    ∧ (clusterByOrientation defaultGridCfg
        (lengthFilter defaultGridCfg coincidentLines)).2.length = 2
    ∧ ¬ (lengthFilter defaultGridCfg coincidentLines).length
          < defaultGridCfg.min_grid_lines * 2
    ∧ detect defaultGridCfg coincidentLines = .error .divByZero := by
  rw [coincident_filter, coincident_cluster]
  refine ⟨rfl, rfl, by norm_num [coincidentLines, defaultGridCfg], ?_⟩
  unfold detect
  rw [coincident_filter, coincident_cluster]
  rw [if_neg (by norm_num [coincidentLines, defaultGridCfg])]
  norm_num [detectClustered, detectGridLines, sortPositions, insertPos, linePos,
    consecutiveGaps, findDominantSpacing, medianQ, sortQ, insertQ,
    gridLineConfidence, qdiv, defaultGridCfg, coincidentH, coincidentV1,
    coincidentV2, List.range_succ, List.mapM, List.mapM.loop,
    Except.instMonad, Except.bind, Except.pure, List.cons_ne_nil]

/-- C8: the `Foundation` default element type names `FOUNDATION`, but the
`ElementType` enumeration is exhaustively the nine listed members and none
of them is named `FOUNDATION`, so resolving the default fails and no
`Foundation` value with that default can be constructed. -/
theorem foundation_element_type_member_missing :
    lookupElementTypeMember foundationDefaultMemberName = none
    ∧ (∀ e : ElementType, e ∈ elementTypeMembers)
    ∧ (∀ e : ElementType, e.memberName ≠ foundationDefaultMemberName) := by
  refine ⟨rfl, fun e => ?_, fun e => ?_⟩ <;> cases e <;> decide

/-- C2: the 4-line 300×300 square at (5000, 5000) yields exactly one
`Foundation`, centered at (5000, 5000) with confidence 0.90; the final
consumed set is `{0, 1}`, which (each orientation list having exactly two
entries) marks all four source lines consumed, so no second rectangle is
reported. -/
theorem foundation_square_detected_once :
    group_lines_into_foundations squareLines 30150
      = [{ center := ⟨5000, 5000⟩, width := 300, depth := 300,
           foundation_depth := 30150, predefined_type := "BASESLAB",
           confidence := 9 / 10, source_layer := "S-FNDN-HDLN" }]
    ∧ (groupFoundationsAux squareLines 30150).2 = [0, 1]
    ∧ (splitByDominance squareLines).1 = [fndBottom, fndTop]
    ∧ (splitByDominance squareLines).2 = [fndLeft, fndRight] := by
  norm_num [group_lines_into_foundations, groupFoundationsAux,
    splitByDominance, foundationLoop, scanOpposite, scanVerticals, addUsed,
    squareLines, fndBottom, fndTop, fndLeft, fndRight, Line2D.dx, Line2D.dy,
    List.enum, List.enumFrom, List.cons_ne_nil, List.mem_cons,
    List.mem_singleton, List.not_mem_nil, List.getD,
    List.getElem?_cons_zero, List.getElem?_cons_succ, List.getElem?_nil,
    Option.getD_some, Option.getD_none]

/-- C10: with the shared consumed-index set, rectangle A consumes indices
{0,1,2,3} (horizontal 0, 1 and vertical 2, 3), which then skips the
horizontal line of rectangle B at index 2: only one foundation is reported,
although the four lines of rectangle B alone form a complete rectangle (they
yield a foundation at (2150, 150) when grouped by themselves), and every
line of rectangle B is in the combined input. -/
theorem foundation_shared_used_set_drops_disjoint_rectangle :
    (group_lines_into_foundations twoRectLines 30150).map (fun f => f.center)
      = [⟨150, 150⟩]
    ∧ (groupFoundationsAux twoRectLines 30150).2 = [0, 1, 2, 3]
    ∧ (group_lines_into_foundations rectBLines 30150).map (fun f => f.center)
        = [⟨2150, 150⟩]
    ∧ ∀ l ∈ rectBLines, l ∈ twoRectLines := by
  refine ⟨?_, ?_, ?_, by decide⟩ <;>
    norm_num [group_lines_into_foundations, groupFoundationsAux,
      splitByDominance, foundationLoop, scanOpposite, scanVerticals, addUsed,
      twoRectLines, rectBLines, rectA_h0, rectA_h1, rectB_h0, rectB_h1,
      rectB_v0, rectB_v1, rectA_v0, rectA_v1, Line2D.dx, Line2D.dy,
      List.enum, List.enumFrom, List.cons_ne_nil, List.mem_cons,
    List.mem_singleton, List.not_mem_nil, List.getD,
    List.getElem?_cons_zero, List.getElem?_cons_succ, List.getElem?_nil,
    Option.getD_some, Option.getD_none]

/-- C3: whenever the match test accepts a pair of walls, the merged wall
spans exactly the two outer endpoints of the matched connection case — the
four cases being tried in fixed order with the first satisfied case
winning — and its confidence is the arithmetic mean of the parents. -/
theorem merged_wall_spans_outer_endpoints
    (w1 w2 : Wall) (atol ptol ctol : ℝ) (ct : String)
    (hc : can_merge_walls w1 w2 atol ptol ctol = (true, ct)) :
    ∃ m : Wall, merge_two_walls w1 w2 ct = some m
      ∧ m.confidence = (w1.confidence + w2.confidence) / 2
      ∧ ((ct = "end_to_start" ∧ condEndToStart w1 w2 ptol ctol
            ∧ m.centerline.start = w1.centerline.start
            ∧ m.centerline.stop = w2.centerline.stop)
        ∨ (ct = "start_to_end" ∧ ¬ condEndToStart w1 w2 ptol ctol
            ∧ condStartToEnd w1 w2 ptol ctol
            ∧ m.centerline.start = w2.centerline.start
            ∧ m.centerline.stop = w1.centerline.stop)
        ∨ (ct = "end_to_end" ∧ ¬ condEndToStart w1 w2 ptol ctol
            ∧ ¬ condStartToEnd w1 w2 ptol ctol
            ∧ condEndToEnd w1 w2 ptol ctol
            ∧ m.centerline.start = w1.centerline.start
            ∧ m.centerline.stop = w2.centerline.start)
        ∨ (ct = "start_to_start" ∧ ¬ condEndToStart w1 w2 ptol ctol
            ∧ ¬ condStartToEnd w1 w2 ptol ctol
            ∧ ¬ condEndToEnd w1 w2 ptol ctol
            ∧ condStartToStart w1 w2 ptol ctol
            ∧ m.centerline.start = w1.centerline.stop
            ∧ m.centerline.stop = w2.centerline.stop)) := by
  unfold can_merge_walls at hc
  split at hc
  · simp at hc
  · split at hc
    · simp at hc
    · split at hc
      · rename_i h1
        simp only [Prod.mk.injEq, true_and] at hc
        subst hc
        refine ⟨{ centerline := { start := w1.centerline.start, stop := w2.centerline.stop, layer := w1.centerline.layer },
                        thickness := w1.thickness, height := w1.height,
                        confidence := (w1.confidence + w2.confidence) / 2,
                        source_layer := w1.source_layer },
          by simp [merge_two_walls], rfl, ?_⟩
        exact Or.inl ⟨rfl, h1, rfl, rfl⟩
      · split at hc
        · rename_i h1 h2
          simp only [Prod.mk.injEq, true_and] at hc
          subst hc
          refine ⟨{ centerline := { start := w2.centerline.start, stop := w1.centerline.stop, layer := w1.centerline.layer },
                        thickness := w1.thickness, height := w1.height,
                        confidence := (w1.confidence + w2.confidence) / 2,
                        source_layer := w1.source_layer },
            by simp [merge_two_walls], rfl, ?_⟩
          exact Or.inr (Or.inl ⟨rfl, h1, h2, rfl, rfl⟩)
        · split at hc
          · rename_i h1 h2 h3
            simp only [Prod.mk.injEq, true_and] at hc
            subst hc
            refine ⟨{ centerline := { start := w1.centerline.start, stop := w2.centerline.start, layer := w1.centerline.layer },
                        thickness := w1.thickness, height := w1.height,
                        confidence := (w1.confidence + w2.confidence) / 2,
                        source_layer := w1.source_layer },
              by simp [merge_two_walls], rfl, ?_⟩
            exact Or.inr (Or.inr (Or.inl ⟨rfl, h1, h2, h3, rfl, rfl⟩))
          · split at hc
            · rename_i h1 h2 h3 h4
              simp only [Prod.mk.injEq, true_and] at hc
              subst hc
              refine ⟨{ centerline := { start := w1.centerline.stop, stop := w2.centerline.stop, layer := w1.centerline.layer },
                        thickness := w1.thickness, height := w1.height,
                        confidence := (w1.confidence + w2.confidence) / 2,
                        source_layer := w1.source_layer },
                by simp [merge_two_walls], rfl, ?_⟩
              exact Or.inr (Or.inr (Or.inr ⟨rfl, h1, h2, h3, h4, rfl, rfl⟩))
            · simp at hc

theorem wallSeg_can_merge :
    can_merge_walls wallSegA wallSegB (17 / 1000) 10 50
      = (true, "end_to_start") := by
  have hpi : 0 < Real.pi := Real.pi_pos
  have ha : wallSegA.centerline.angle = 0 :=
    angle_of_pos_dx_zero_dy _ (by norm_num [wallSegA, Line2D.dx])
      (by norm_num [wallSegA, Line2D.dy])
  have hb : wallSegB.centerline.angle = 0 :=
    angle_of_pos_dx_zero_dy _ (by norm_num [wallSegB, Line2D.dx])
      (by norm_num [wallSegB, Line2D.dy])
  have hang : anglesClose wallSegA.centerline.angle wallSegB.centerline.angle
      ((17 : ℝ) / 1000) := by
    rw [ha, hb]
    unfold anglesClose pyMod
    rw [abs_zero, zero_div, Int.floor_zero]
    norm_num [hpi.le]
    rw [if_neg (by linarith)]
    norm_num
  have hclose : pointsClose wallSegA.centerline.stop
      wallSegB.centerline.start (10 : ℝ) := by
    unfold pointsClose
    rw [show wallSegB.centerline.start = wallSegA.centerline.stop by
      norm_num [wallSegA, wallSegB]]
    rw [Point2D.distance_to_self]
    norm_num
  have hcol : pointsCollinear wallSegA.centerline.start
      wallSegA.centerline.stop wallSegB.centerline.stop (50 : ℝ) := by
    unfold pointsCollinear
    norm_num [wallSegA, wallSegB]
  unfold can_merge_walls
  rw [if_neg (by norm_num [wallSegA, wallSegB]),
    if_neg (not_not_intro hang), if_pos ⟨hclose, hcol⟩]

theorem merged_wall_spans_outer_endpoints_witness :
    can_merge_walls wallSegA wallSegB (17 / 1000) 10 50
      = (true, "end_to_start")
    ∧ ∃ m : Wall, merge_two_walls wallSegA wallSegB "end_to_start" = some m
      ∧ m.confidence = (wallSegA.confidence + wallSegB.confidence) / 2
      ∧ ((("end_to_start" : String) = "end_to_start"
            ∧ condEndToStart wallSegA wallSegB 10 50
            ∧ m.centerline.start = wallSegA.centerline.start
            ∧ m.centerline.stop = wallSegB.centerline.stop)
        ∨ (("end_to_start" : String) = "start_to_end"
            ∧ ¬ condEndToStart wallSegA wallSegB 10 50
            ∧ condStartToEnd wallSegA wallSegB 10 50
            ∧ m.centerline.start = wallSegB.centerline.start
            ∧ m.centerline.stop = wallSegA.centerline.stop)
        ∨ (("end_to_start" : String) = "end_to_end"
            ∧ ¬ condEndToStart wallSegA wallSegB 10 50
            ∧ ¬ condStartToEnd wallSegA wallSegB 10 50
            ∧ condEndToEnd wallSegA wallSegB 10 50
            ∧ m.centerline.start = wallSegA.centerline.start
            ∧ m.centerline.stop = wallSegB.centerline.start)
        ∨ (("end_to_start" : String) = "start_to_start"
            ∧ ¬ condEndToStart wallSegA wallSegB 10 50
            ∧ ¬ condStartToEnd wallSegA wallSegB 10 50
            ∧ ¬ condEndToEnd wallSegA wallSegB 10 50
            ∧ condStartToStart wallSegA wallSegB 10 50
            ∧ m.centerline.start = wallSegA.centerline.stop
            ∧ m.centerline.stop = wallSegB.centerline.stop)) :=
  ⟨wallSeg_can_merge,
    merged_wall_spans_outer_endpoints wallSegA wallSegB (17 / 1000) 10 50
      "end_to_start" wallSeg_can_merge⟩

theorem insertNat_length (x : ℕ) (l : List ℕ) :
    (insertNat x l).length = l.length + 1 := by
  induction l with
  | nil => rfl
  | cons y ys ih =>
    rw [insertNat]
    split <;> simp [ih]

theorem sortNat_length (l : List ℕ) : (sortNat l).length = l.length := by
  have h : ∀ m acc : List ℕ,
      (m.foldl (fun acc x => insertNat x acc) acc).length
        = acc.length + m.length := by
    intro m
    induction m with
    | nil => intro acc; simp
    | cons y ys ih =>
      intro acc
      rw [List.foldl_cons, ih, insertNat_length, List.length_cons]
      omega
  simpa [sortNat] using h l []

theorem mkGroups_nil (cands : List (Point2D × ℕ × String)) (etol : ℝ)
    (processed : List ℕ) : mkGroups cands etol [] processed = [] := rfl

theorem mkGroups_cons (cands : List (Point2D × ℕ × String)) (etol : ℝ)
    (idx : ℕ) (rest processed : List ℕ) :
    mkGroups cands etol (idx :: rest) processed =
      if idx ∈ processed then mkGroups cands etol rest processed
      else if 1 < (sortNat ((nearbyOf cands etol idx processed).map
          (fun k => (candAt cands k).2.1)).dedup).length then
        { point := ⟨((nearbyOf cands etol idx processed).map
                      (fun k => (candAt cands k).1.x)).sum
                      / (nearbyOf cands etol idx processed).length,
                    ((nearbyOf cands etol idx processed).map
                      (fun k => (candAt cands k).1.y)).sum
                      / (nearbyOf cands etol idx processed).length⟩
          wall_indices := sortNat ((nearbyOf cands etol idx processed).map
            (fun k => (candAt cands k).2.1)).dedup }
          :: mkGroups cands etol rest
              (processed ++ nearbyOf cands etol idx processed)
      else mkGroups cands etol rest
        (processed ++ nearbyOf cands etol idx processed) := rfl

/-- One-hop grouping invariant: every reported intersection has a seed
candidate, all member points lie within `etol` of the seed point, the
reported point is the arithmetic mean of the member points, and the sorted
deduplicated member wall indices (more than one distinct wall) are the
reported wall indices. -/
theorem mkGroups_mem_spec (cands : List (Point2D × ℕ × String)) (etol : ℝ) :
    ∀ (idxs processed : List ℕ) (it : WallIntersection),
      it ∈ mkGroups cands etol idxs processed →
      ∃ (seed : Point2D) (pts : List (Point2D × ℕ)),
        pts ≠ []
        ∧ seed ∈ pts.map Prod.fst
        ∧ (∀ p ∈ pts, seed.distance_to p.1 < etol)
        ∧ it.point = ⟨(pts.map (fun p => p.1.x)).sum / pts.length,
                      (pts.map (fun p => p.1.y)).sum / pts.length⟩
        ∧ it.wall_indices = sortNat (pts.map Prod.snd).dedup
        ∧ 1 < it.wall_indices.length := by
  intro idxs
  induction idxs with
  | nil =>
    intro processed it h
    rw [mkGroups_nil] at h
    simp at h
  | cons idx rest ih =>
    intro processed it h
    rw [mkGroups_cons] at h
    split at h
    · exact ih _ _ h
    · split at h
      · rename_i hnein hlen
        rcases List.mem_cons.1 h with hhead | htail
        · subst hhead
          refine ⟨(candAt cands idx).1,
            (nearbyOf cands etol idx processed).map
              (fun k => ((candAt cands k).1, (candAt cands k).2.1)),
            by simp [nearbyOf], ?_, ?_, ?_, ?_, ?_⟩
          · rw [List.map_map]
            exact List.mem_map.2 ⟨idx, List.mem_cons_self _ _, rfl⟩
          · -- every member is within etol of the seed
            have hpos : 0 < etol := by
              by_contra hneg
              push_neg at hneg
              have hfil : (List.range cands.length).filter (fun o =>
                  decide (o ≠ idx ∧ o ∉ processed
                    ∧ (candAt cands idx).1.distance_to
                        (candAt cands o).1 < etol)) = [] := by
                apply List.filter_eq_nil.2
                intro o _
                simp only [decide_eq_true_eq, not_and, not_lt]
                intro _ _
                exact le_trans hneg (Point2D.distance_to_nonneg _ _)
              have h1 : 1 <
                  (sortNat ((nearbyOf cands etol idx processed).map
                    (fun k => (candAt cands k).2.1)).dedup).length := hlen
              rw [sortNat_length, nearbyOf, hfil] at h1
              simp [List.dedup_cons_of_not_mem] at h1
            rintro p hp
            rcases List.mem_map.1 hp with ⟨k, hk, rfl⟩
            rcases List.mem_cons.1 hk with rfl | hk2
            · simpa [Point2D.distance_to_self] using hpos
            · have := (List.mem_filter.1 hk2).2
              simp only [decide_eq_true_eq] at this
              exact this.2.2
          · simp only [List.map_map, List.length_map]
            rfl
          · simp only [List.map_map]
            rfl
          · exact hlen
        · exact ih _ _ htail
      · exact ih _ _ h

/-- C5 (amended): every reported `WallIntersection` comes from a group of
candidate `(point, wall)` entries all within the endpoint tolerance of the
group seed point (one hop from the seed, not a transitive closure), it
references more than one distinct wall, and its point is the arithmetic
mean of the member points. -/
theorem wall_intersection_group_spec
    (walls : List Wall) (etol itol : ℝ) (it : WallIntersection)
    (hmem : it ∈ detect_wall_intersections walls etol itol) :
    ∃ (seed : Point2D) (pts : List (Point2D × ℕ)),
      pts ≠ []
      ∧ seed ∈ pts.map Prod.fst
      ∧ (∀ p ∈ pts, seed.distance_to p.1 < etol)
      ∧ it.point = ⟨(pts.map (fun p => p.1.x)).sum / pts.length,
                    (pts.map (fun p => p.1.y)).sum / pts.length⟩
      ∧ it.wall_indices = sortNat (pts.map Prod.snd).dedup
      ∧ 1 < it.wall_indices.length := by
  unfold detect_wall_intersections at hmem
  split at hmem
  · simp at hmem
  · exact mkGroups_mem_spec _ _ _ _ _ hmem

theorem dist_lt_50 (p q : Point2D) :
    p.distance_to q < 50 ↔ p.distSq q < 2500 := by
  rw [Point2D.distance_to_lt_iff p q (by norm_num)]
  rw [show ((50 : ℝ) ^ 2) = ((2500 : ℚ) : ℝ) by norm_num]
  exact Rat.cast_lt

set_option maxHeartbeats 3000000 in
theorem chainWalls_eval :
    detect_wall_intersections chainWalls 50 50 = [chainIt1, chainIt2] := by
  have hr6 : List.range 6 = [0, 1, 2, 3, 4, 5] := by decide
  norm_num [detect_wall_intersections, chainWalls, chainWall0, chainWall1,
    chainWall2, chainIt1, chainIt2, endpointCandidates, crossingPass,
    crossingInner, linesIntersect, mkGroups_nil, mkGroups_cons, nearbyOf,
    candAt, sortNat, insertNat, dist_lt_50, Point2D.distSq,
    List.enum, List.enumFrom, hr6, List.dedup_nil, List.dedup_cons_of_mem,
    List.dedup_cons_of_not_mem, List.sum_cons, List.sum_nil,
    List.mem_cons, List.mem_singleton, List.not_mem_nil, List.getD,
    List.getElem?_cons_zero, List.getElem?_cons_succ, List.getElem?_nil,
    Option.getD_some, Option.getD_none, List.filter_cons, List.filter_nil,
    decide_eq_true_eq]

/-- C5 counterexample: the candidate start points of walls 0, 1, 2 form a
within-tolerance chain (each step 40 < 50), so transitive grouping would
place all three in one group and report an intersection referencing wall 2;
the code, which groups one hop from the seed only, reports exactly two
intersections, both referencing only walls 0 and 1 — no reported
intersection mentions wall 2. -/
theorem wall_intersection_grouping_not_transitive :
    chainWall0.centerline.start.distance_to chainWall1.centerline.start < 50
    ∧ chainWall1.centerline.start.distance_to chainWall2.centerline.start < 50
    ∧ ¬ chainWall0.centerline.start.distance_to chainWall2.centerline.start
        < 50
    ∧ detect_wall_intersections chainWalls 50 50 = [chainIt1, chainIt2]
    ∧ ∀ it ∈ detect_wall_intersections chainWalls 50 50,
        2 ∉ it.wall_indices := by
  refine ⟨?_, ?_, ?_, chainWalls_eval, ?_⟩
  · rw [dist_lt_50]
    norm_num [chainWall0, chainWall1, Point2D.distSq]
  · rw [dist_lt_50]
    norm_num [chainWall1, chainWall2, Point2D.distSq]
  · rw [dist_lt_50]
    norm_num [chainWall0, chainWall2, Point2D.distSq]
  · rw [chainWalls_eval]
    intro it hit
    rcases List.mem_cons.1 hit with rfl | hit2
    · decide
    · rcases List.mem_cons.1 hit2 with rfl | hit3
      · decide
      · simp at hit3

theorem wall_intersection_group_spec_witness :
    chainIt1 ∈ detect_wall_intersections chainWalls 50 50
    ∧ ∃ (seed : Point2D) (pts : List (Point2D × ℕ)),
        pts ≠ []
        ∧ seed ∈ pts.map Prod.fst
        ∧ (∀ p ∈ pts, seed.distance_to p.1 < 50)
        ∧ chainIt1.point = ⟨(pts.map (fun p => p.1.x)).sum / pts.length,
                            (pts.map (fun p => p.1.y)).sum / pts.length⟩
        ∧ chainIt1.wall_indices = sortNat (pts.map Prod.snd).dedup
        ∧ 1 < chainIt1.wall_indices.length :=
  ⟨by rw [chainWalls_eval]; exact List.mem_cons_self _ _,
    wall_intersection_group_spec chainWalls 50 50 chainIt1
      (by rw [chainWalls_eval]; exact List.mem_cons_self _ _)⟩

theorem extend_calc (a b e : ℝ) (hS : 0 < a ^ 2 + b ^ 2) (he : 0 ≤ e) :
    Real.sqrt ((a / Real.sqrt (a ^ 2 + b ^ 2) * e) ^ 2
        + (b / Real.sqrt (a ^ 2 + b ^ 2) * e) ^ 2) = e
    ∧ Real.sqrt ((a + a / Real.sqrt (a ^ 2 + b ^ 2) * e) ^ 2
        + (b + b / Real.sqrt (a ^ 2 + b ^ 2) * e) ^ 2)
      = Real.sqrt (a ^ 2 + b ^ 2) + e := by
  have hlen : 0 < Real.sqrt (a ^ 2 + b ^ 2) := Real.sqrt_pos.2 hS
  set L := Real.sqrt (a ^ 2 + b ^ 2) with hL
  constructor
  · rw [show (a / L * e) ^ 2 + (b / L * e) ^ 2
        = (e / L) ^ 2 * (a ^ 2 + b ^ 2) from by ring,
      Real.sqrt_mul (sq_nonneg _), ← hL, Real.sqrt_sq_eq_abs,
      abs_of_nonneg (div_nonneg he hlen.le), div_mul_cancel₀ _ hlen.ne']
  · have e2 : (a + a / L * e) ^ 2 + (b + b / L * e) ^ 2
        = ((L + e) / L) ^ 2 * (a ^ 2 + b ^ 2) := by
      field_simp
      ring
    rw [e2, Real.sqrt_mul (sq_nonneg _), ← hL, Real.sqrt_sq_eq_abs,
      abs_of_nonneg (div_nonneg (by linarith) hlen.le),
      div_mul_cancel₀ _ hlen.ne']

theorem extendAwayFrom_geometry (p : PointR) (fx fy : ℚ) (e : ℝ)
    (hne : ¬ (p.x = (fx : ℝ) ∧ p.y = (fy : ℝ))) (he : 0 ≤ e) :
    PointR.dist (extendAwayFrom p fx fy e) p = e
    ∧ PointR.dist (extendAwayFrom p fx fy e) ⟨(fx : ℝ), (fy : ℝ)⟩
        = PointR.dist p ⟨(fx : ℝ), (fy : ℝ)⟩ + e := by
  have hS : 0 < (p.x - (fx : ℝ)) ^ 2 + (p.y - (fy : ℝ)) ^ 2 := by
    rcases not_and_or.1 hne with h | h
    · have h1 : p.x - (fx : ℝ) ≠ 0 := sub_ne_zero.2 h
      have h2 : 0 < (p.x - (fx : ℝ)) ^ 2 :=
        lt_of_le_of_ne (sq_nonneg _) (Ne.symm (pow_ne_zero 2 h1))
      nlinarith [sq_nonneg (p.y - (fy : ℝ))]
    · have h1 : p.y - (fy : ℝ) ≠ 0 := sub_ne_zero.2 h
      have h2 : 0 < (p.y - (fy : ℝ)) ^ 2 :=
        lt_of_le_of_ne (sq_nonneg _) (Ne.symm (pow_ne_zero 2 h1))
      nlinarith [sq_nonneg (p.x - (fx : ℝ))]
  have hlen : 0 < Real.sqrt ((p.x - (fx : ℝ)) ^ 2 + (p.y - (fy : ℝ)) ^ 2) :=
    Real.sqrt_pos.2 hS
  have hite : extendAwayFrom p fx fy e =
      ⟨p.x + (p.x - (fx : ℝ))
          / Real.sqrt ((p.x - (fx : ℝ)) ^ 2 + (p.y - (fy : ℝ)) ^ 2) * e,
       p.y + (p.y - (fy : ℝ))
          / Real.sqrt ((p.x - (fx : ℝ)) ^ 2 + (p.y - (fy : ℝ)) ^ 2) * e⟩ := by
    simp only [extendAwayFrom]
    rw [if_pos hlen]
  have hc := extend_calc (p.x - (fx : ℝ)) (p.y - (fy : ℝ)) e hS he
  constructor
  · rw [hite, PointR.dist]
    rw [show p.x + (p.x - (fx : ℝ))
          / Real.sqrt ((p.x - (fx : ℝ)) ^ 2 + (p.y - (fy : ℝ)) ^ 2) * e - p.x
        = (p.x - (fx : ℝ))
          / Real.sqrt ((p.x - (fx : ℝ)) ^ 2 + (p.y - (fy : ℝ)) ^ 2) * e
        from by ring,
      show p.y + (p.y - (fy : ℝ))
          / Real.sqrt ((p.x - (fx : ℝ)) ^ 2 + (p.y - (fy : ℝ)) ^ 2) * e - p.y
        = (p.y - (fy : ℝ))
          / Real.sqrt ((p.x - (fx : ℝ)) ^ 2 + (p.y - (fy : ℝ)) ^ 2) * e
        from by ring]
    exact hc.1
  · rw [hite, PointR.dist, PointR.dist]
    rw [show p.x + (p.x - (fx : ℝ))
          / Real.sqrt ((p.x - (fx : ℝ)) ^ 2 + (p.y - (fy : ℝ)) ^ 2) * e
          - (fx : ℝ)
        = (p.x - (fx : ℝ)) + (p.x - (fx : ℝ))
          / Real.sqrt ((p.x - (fx : ℝ)) ^ 2 + (p.y - (fy : ℝ)) ^ 2) * e
        from by ring,
      show p.y + (p.y - (fy : ℝ))
          / Real.sqrt ((p.x - (fx : ℝ)) ^ 2 + (p.y - (fy : ℝ)) ^ 2) * e
          - (fy : ℝ)
        = (p.y - (fy : ℝ)) + (p.y - (fy : ℝ))
          / Real.sqrt ((p.x - (fx : ℝ)) ^ 2 + (p.y - (fy : ℝ)) ^ 2) * e
        from by ring]
    exact hc.2

/-- C4: under a detected intersection, a wall endpoint within snap tolerance
of the intersection point is snapped to that exact point; exactly for
two-wall (L-corner) intersections the snapped endpoint is additionally
extended away from the wall own far endpoint by half the other wall
thickness (three or more walls: snapped, never extended); a wall with
neither endpoint in tolerance passes through unchanged.  The final
conjunct states what the extension does geometrically: for a non-degenerate
direction it moves the snapped point exactly `ext` further away from the
far endpoint. -/
theorem wall_endpoints_snap_and_extend
    (walls : List Wall) (it : WallIntersection) (i : ℕ) (w : Wall)
    (hw : walls[i]? = some w) (hi : i ∈ it.wall_indices) (snapTol : ℝ) :
    ((w.centerline.start.distance_to it.point < snapTol →
      ((adjust_walls_at_intersections walls [it] snapTol true)[i]?.map
          (fun v => v.centerline.start)) =
        some (if it.wall_indices.length = 2 then
            extendAwayFrom (toPointR it.point) w.centerline.stop.x
              w.centerline.stop.y
              (((walls.getD (it.wall_indices.getD
                  (1 - it.wall_indices.indexOf i) 0) default).thickness : ℚ)
                  / 2 : ℝ)
          else toPointR it.point))
    ∧ (w.centerline.stop.distance_to it.point < snapTol →
      ((adjust_walls_at_intersections walls [it] snapTol true)[i]?.map
          (fun v => v.centerline.stop)) =
        some (if it.wall_indices.length = 2 then
            extendAwayFrom (toPointR it.point) w.centerline.start.x
              w.centerline.start.y
              (((walls.getD (it.wall_indices.getD
                  (1 - it.wall_indices.indexOf i) 0) default).thickness : ℚ)
                  / 2 : ℝ)
          else toPointR it.point))
    ∧ (¬ w.centerline.start.distance_to it.point < snapTol →
       ¬ w.centerline.stop.distance_to it.point < snapTol →
      (adjust_walls_at_intersections walls [it] snapTol true)[i]?
        = some (toWallR w)))
    ∧ ∀ (p : PointR) (fx fy : ℚ) (e : ℝ),
        ¬ (p.x = (fx : ℝ) ∧ p.y = (fy : ℝ)) → 0 ≤ e →
        PointR.dist (extendAwayFrom p fx fy e) p = e
        ∧ PointR.dist (extendAwayFrom p fx fy e) ⟨(fx : ℝ), (fy : ℝ)⟩
            = PointR.dist p ⟨(fx : ℝ), (fy : ℝ)⟩ + e := by
  have hits : ([it] : List WallIntersection) ≠ [] := by simp
  refine ⟨⟨?_, ?_, ?_⟩,
    fun p fx fy e hne he => extendAwayFrom_geometry p fx fy e hne he⟩ <;>
    rw [adjust_walls_at_intersections, if_neg hits,
      List.getElem?_map, List.getElem?_enum, hw] <;>
    simp only [Option.map_some, Option.map_some', List.foldl_cons,
      List.foldl_nil, adjustStep, if_pos hi]
  · intro hs
    by_cases hL : it.wall_indices.length = 2 <;>
      by_cases he : w.centerline.stop.distance_to it.point < snapTol <;>
        simp [hs, he, hL]
  · intro hs
    by_cases hL : it.wall_indices.length = 2 <;>
      by_cases he : w.centerline.start.distance_to it.point < snapTol <;>
        simp [hs, he, hL]
  · intro hs he
    by_cases hL : it.wall_indices.length = 2 <;>
      simp [hs, he, hL]

theorem wall_endpoints_snap_and_extend_witness :
    cornerWallA.centerline.start.distance_to cornerIt.point < 50
    ∧ (((cornerWallA.centerline.start.distance_to cornerIt.point < 50 →
      ((adjust_walls_at_intersections [cornerWallA, cornerWallB] [cornerIt]
          50 true)[0]?.map (fun v => v.centerline.start)) =
        some (if cornerIt.wall_indices.length = 2 then
            extendAwayFrom (toPointR cornerIt.point)
              cornerWallA.centerline.stop.x cornerWallA.centerline.stop.y
              (((([cornerWallA, cornerWallB].getD
                  (cornerIt.wall_indices.getD
                    (1 - cornerIt.wall_indices.indexOf 0) 0)
                  default).thickness : ℚ) / 2 : ℝ))
          else toPointR cornerIt.point))
    ∧ (cornerWallA.centerline.stop.distance_to cornerIt.point < 50 →
      ((adjust_walls_at_intersections [cornerWallA, cornerWallB] [cornerIt]
          50 true)[0]?.map (fun v => v.centerline.stop)) =
        some (if cornerIt.wall_indices.length = 2 then
            extendAwayFrom (toPointR cornerIt.point)
              cornerWallA.centerline.start.x cornerWallA.centerline.start.y
              (((([cornerWallA, cornerWallB].getD
                  (cornerIt.wall_indices.getD
                    (1 - cornerIt.wall_indices.indexOf 0) 0)
                  default).thickness : ℚ) / 2 : ℝ))
          else toPointR cornerIt.point))
    ∧ (¬ cornerWallA.centerline.start.distance_to cornerIt.point < 50 →
       ¬ cornerWallA.centerline.stop.distance_to cornerIt.point < 50 →
      (adjust_walls_at_intersections [cornerWallA, cornerWallB] [cornerIt]
          50 true)[0]? = some (toWallR cornerWallA)))
    ∧ ∀ (p : PointR) (fx fy : ℚ) (e : ℝ),
        ¬ (p.x = (fx : ℝ) ∧ p.y = (fy : ℝ)) → 0 ≤ e →
        PointR.dist (extendAwayFrom p fx fy e) p = e
        ∧ PointR.dist (extendAwayFrom p fx fy e) ⟨(fx : ℝ), (fy : ℝ)⟩
            = PointR.dist p ⟨(fx : ℝ), (fy : ℝ)⟩ + e) :=
  ⟨by
    rw [show cornerWallA.centerline.start = cornerIt.point from rfl,
      Point2D.distance_to_self]
    norm_num,
   wall_endpoints_snap_and_extend [cornerWallA, cornerWallB] cornerIt 0
     cornerWallA rfl (by decide) 50⟩

end
